import Mathlib

/-!
# ELinuxWindowX11: event translation and window lifecycle

A shallow embedding of
`src/flutter/shell/platform/linux_embedded/window/elinux_window_x11.cc`.

* The window object is a record of its member variables; every member
  function is a function from the record (and its arguments) to the new
  record and the effects it had.
* Delegate calls are collected, oldest first, in a list of `DelegateCall`.
* The pending events of the display connection (`XPending` / `XNextEvent`)
  are a list of `XEvent`, head first.
* Dereferencing a null `display_` or a null `native_window_` is a `Fault`.
* `ELINUX_LOG` output is not part of the model.
-/

set_option linter.dupNamespace false

namespace flutter

/-! ## Constants of `X11/X.h` used by the source -/

abbrev KeyPress : Int := 2
abbrev KeyRelease : Int := 3
abbrev ButtonPress : Int := 4
abbrev ButtonRelease : Int := 5
abbrev MotionNotify : Int := 6
abbrev EnterNotify : Int := 7
abbrev LeaveNotify : Int := 8
abbrev DestroyNotify : Int := 17
abbrev ConfigureNotify : Int := 22
abbrev ClientMessage : Int := 33

abbrev Button1 : Nat := 1
abbrev Button2 : Nat := 2
abbrev Button3 : Nat := 3
abbrev Button4 : Nat := 4
abbrev Button5 : Nat := 5

/-! ## Constants of the anonymous namespace (lines 16-22) -/

abbrev kButton6 : Nat := 6
abbrev kButton7 : Nat := 7
abbrev kButton8 : Nat := 8
abbrev kButton9 : Nat := 9

/-! ## Machine integers -/

/-- Conversion of an `int` to the `int16_t` parameters of
`HandlePointerButtonEvent` (two's complement narrowing). -/
def to_int16 (v : Int) : Int := (v + 32768) % 65536 - 32768

/-- Subtraction of `unsigned int` values: `a - b` modulo `2^32`. -/
def sub_uint32 (a b : Nat) : Nat := (a % 4294967296 + 4294967296 - b % 4294967296) % 4294967296

/-! ## Data model -/

/-- Logical mouse buttons delivered to the delegate. -/
inductive FlutterPointerMouseButtons where
  | kFlutterPointerButtonMousePrimary
  | kFlutterPointerButtonMouseSecondary
  | kFlutterPointerButtonMouseMiddle
  | kFlutterPointerButtonMouseBack
  | kFlutterPointerButtonMouseForward
  deriving DecidableEq, Repr

/-- Modelled from the spec: the rotation enumeration of the view properties
(its declaration is not under src/); the spec lists 0/90/180/270. -/
inductive FlutterDesktopViewRotation where
  | kRotation_0
  | kRotation_90
  | kRotation_180
  | kRotation_270
  deriving DecidableEq, Repr

/-- Modelled from the spec: the view properties record (its declaration is
not under src/), with the members the source reads. -/
structure FlutterDesktopViewProperties where
  title : String
  width : Int
  height : Int
  view_rotation : FlutterDesktopViewRotation
  force_scale_factor : Bool
  scale_factor : Rat
  deriving DecidableEq, Repr

/-- One call made on `binding_handler_delegate_`. Numeric arguments are the
values of the argument expressions in the source. -/
inductive DelegateCall where
  | OnPointerMove (x y : Int)
  | OnPointerLeave
  | OnPointerDown (x y : Int) (button : FlutterPointerMouseButtons)
  | OnPointerUp (x y : Int) (button : FlutterPointerMouseButtons)
  | OnScroll (x y : Int) (dx dy : Int) (multiplier : Int)
  | OnKey (code : Nat) (pressed : Bool)
  | OnWindowSizeChanged (width height : Int)
  deriving DecidableEq, Repr

/-- The members of the `XEvent` union that `DispatchEvent` reads:
`type`, `xbutton.button`, `xbutton.x`, `xbutton.y`, `xkey.keycode`,
`xconfigure.width`, `xconfigure.height`. -/
structure XEvent where
  type : Int
  button : Nat
  x : Int
  y : Int
  keycode : Nat
  width : Int
  height : Int
  deriving DecidableEq, Repr

/-- Modelled from the spec: the native window object held by
`native_window_` (class `NativeWindowX11`, declared outside src/). `handle`
identifies the object, `valid_` is the answer of its `IsValid()`, the other
members are the constructor arguments it was built from. -/
structure NativeWindowX11 where
  handle : Nat
  display : Option Nat
  visual_id : Int
  title : String
  width : Int
  height : Int
  valid_ : Bool
  deriving DecidableEq, Repr

/-- Answer of `NativeWindowX11::IsValid()`. -/
def NativeWindowX11.IsValid (w : NativeWindowX11) : Bool := w.valid_

/-- Modelled from the spec: the render surface object held by
`render_surface_` (class `SurfaceGl`, declared outside src/).
`native_window_` is the handle of the window bound by `SetNativeWindow`,
`valid_` is the answer of its `IsValid()`. -/
structure SurfaceGl where
  native_window_ : Option Nat
  valid_ : Bool
  deriving DecidableEq, Repr

/-- Answer of `SurfaceGl::IsValid()`. -/
def SurfaceGl.IsValid (r : SurfaceGl) : Bool := r.valid_

/-- `SurfaceGl::SetNativeWindow`: binds the surface to a native window. -/
def SurfaceGl.SetNativeWindow (r : SurfaceGl) (w : NativeWindowX11) : SurfaceGl :=
  { r with native_window_ := some w.handle }

/-- Member variables of `ELinuxWindowX11`. `display_` and
`binding_handler_delegate_` are raw pointers (`none` is the null pointer),
`native_window_` and `render_surface_` are owning pointers. -/
structure ELinuxWindowX11 where
  view_properties_ : FlutterDesktopViewProperties
  current_rotation_ : Nat
  current_scale_ : Rat
  display_ : Option Nat
  display_valid_ : Bool
  native_window_ : Option NativeWindowX11
  render_surface_ : Option SurfaceGl
  clipboard_data_ : String
  binding_handler_delegate_ : Option Nat
  deriving DecidableEq, Repr

/-- Objects released (destroyed) by an operation, in order of release. -/
inductive Released where
  | render_surface (r : SurfaceGl)
  | native_window (w : NativeWindowX11)
  deriving DecidableEq, Repr

/-- Null pointer dereferences of `DispatchEvent`. -/
inductive Fault where
  | null_display
  | null_native_window
  deriving DecidableEq, Repr

/-- Outcome of the `switch` on one dequeued event: `next` leaves the
`switch` by `break` with the new member variables and the delegate calls
made, `stop` is the `return false` of `DestroyNotify`. -/
inductive Step where
  | next (self : ELinuxWindowX11) (calls : List DelegateCall)
  | stop
  deriving DecidableEq, Repr

/-- What one `DispatchEvent` call leaves behind: its return value, the
member variables, the events still pending on the display connection, and the
delegate calls made (oldest first). -/
structure DispatchResult where
  ret : Bool
  self : ELinuxWindowX11
  pending : List XEvent
  calls : List DelegateCall
  deriving DecidableEq, Repr

/-- Answers of the collaborators outside src/ during one
`CreateRenderSurface` call: the value of
`context_egl->GetAttrib(EGL_NATIVE_VISUAL_ID)`, the identity of the
`NativeWindowX11` object constructed, the answer of its `IsValid()`, and the
answer of `IsValid()` of the `SurfaceGl` object constructed. -/
structure CreateEnv where
  visual_id : Int
  window_handle : Nat
  window_valid : Bool
  surface_valid : Bool
  deriving DecidableEq, Repr

/-- What one `CreateRenderSurface` call leaves behind: its return value, the
member variables, and the objects it released, in order. -/
structure CreateResult where
  ret : Bool
  self : ELinuxWindowX11
  released : List Released
  deriving DecidableEq, Repr

namespace ELinuxWindowX11

/-- Modelled from the spec: `SetRotation` (defined outside src/) stores the
rotation of the view properties in degrees. -/
def SetRotation (self : ELinuxWindowX11) (rotation : FlutterDesktopViewRotation) :
    ELinuxWindowX11 :=
  { self with
    current_rotation_ :=
      match rotation with
      | .kRotation_0 => 0
      | .kRotation_90 => 90
      | .kRotation_180 => 180
      | .kRotation_270 => 270 }

/-- Modelled from the spec: the member defaults of the class declaration
(not under src/): owning pointers and the delegate are null, the validity
flag is false, the clipboard is empty. `view_properties_`,
`current_scale_`, `current_rotation_` and `display_` are overwritten by the
constructor. -/
def fresh (view_properties : FlutterDesktopViewProperties) : ELinuxWindowX11 :=
  { view_properties_ := view_properties
    current_rotation_ := 0
    current_scale_ := 1
    display_ := none
    display_valid_ := false
    native_window_ := none
    render_surface_ := none
    clipboard_data_ := ""
    binding_handler_delegate_ := none }

/-- Constructor `ELinuxWindowX11::ELinuxWindowX11` (lines 24-37).
`XOpenDisplay` is the answer of `XOpenDisplay(NULL)`. -/
def ELinuxWindowX11 (view_properties : FlutterDesktopViewProperties)
    (XOpenDisplay : Option Nat) : flutter.ELinuxWindowX11 :=
  let self := fresh view_properties
  let self := { self with view_properties_ := view_properties }
  let self := { self with
    current_scale_ :=
      if view_properties.force_scale_factor then view_properties.scale_factor else 1 }
  let self := self.SetRotation self.view_properties_.view_rotation
  let self := { self with display_ := XOpenDisplay }
  match self.display_ with
  | none => self
  | some _ => { self with display_valid_ := true }

/-- `IsValid` (lines 47-53). -/
def IsValid (self : flutter.ELinuxWindowX11) : Bool :=
  if !self.display_valid_
      || self.native_window_.isNone
      || self.render_surface_.isNone
      || !(match self.native_window_ with
           | some w => w.IsValid
           | none => false)
      || !(match self.render_surface_ with
           | some r => r.IsValid
           | none => false) then
    false
  else
    true

/-- `HandlePointerButtonEvent` (lines 191-235): the delegate calls it makes.
It changes no member variable. -/
def HandlePointerButtonEvent (self : flutter.ELinuxWindowX11) (button : Nat)
    (button_pressed : Bool) (x y : Int) : List DelegateCall :=
  match self.binding_handler_delegate_ with
  | none => []
  | some _ =>
    if button = Button1 then
      if button_pressed then [.OnPointerDown x y .kFlutterPointerButtonMousePrimary]
      else [.OnPointerUp x y .kFlutterPointerButtonMousePrimary]
    else if button = Button2 then
      if button_pressed then [.OnPointerDown x y .kFlutterPointerButtonMouseMiddle]
      else [.OnPointerUp x y .kFlutterPointerButtonMouseMiddle]
    else if button = Button3 then
      if button_pressed then [.OnPointerDown x y .kFlutterPointerButtonMouseSecondary]
      else [.OnPointerUp x y .kFlutterPointerButtonMouseSecondary]
    else if button = Button4 ∨ button = Button5 ∨ button = kButton6 ∨ button = kButton7 then
      let vertical_scroll : Bool := decide (button = Button4 ∨ button = Button5)
      let delta : Int := if button = Button5 then 1 else -1
      let kScrollOffsetMultiplier : Int := 20
      [.OnScroll x y (if vertical_scroll then 0 else delta)
        (if vertical_scroll then delta else 0) kScrollOffsetMultiplier]
    else if button = kButton8 then
      if button_pressed then [.OnPointerDown x y .kFlutterPointerButtonMouseBack]
      else [.OnPointerUp x y .kFlutterPointerButtonMouseBack]
    else if button = kButton9 then
      if button_pressed then [.OnPointerDown x y .kFlutterPointerButtonMouseForward]
      else [.OnPointerUp x y .kFlutterPointerButtonMouseForward]
    else
      []

/-- The body of the `while` loop of `DispatchEvent` (lines 57-119): the
`switch` on the type of one dequeued event. The `int` members `xbutton.x` and
`xbutton.y` are narrowed to the `int16_t` parameters of
`HandlePointerButtonEvent`. `NativeWindowX11::Destroy` is not under src/:
what it does to the window object is the parameter `Destroy`. -/
def ProcessEvent (Destroy : NativeWindowX11 → NativeWindowX11)
    (self : flutter.ELinuxWindowX11) (event : XEvent) : Except Fault Step :=
  if event.type = EnterNotify ∨ event.type = MotionNotify then
    match self.binding_handler_delegate_ with
    | some _ => .ok (.next self [.OnPointerMove event.x event.y])
    | none => .ok (.next self [])
  else if event.type = LeaveNotify then
    match self.binding_handler_delegate_ with
    | some _ => .ok (.next self [.OnPointerLeave])
    | none => .ok (.next self [])
  else if event.type = ButtonPress then
    .ok (.next self
      (self.HandlePointerButtonEvent event.button true (to_int16 event.x) (to_int16 event.y)))
  else if event.type = ButtonRelease then
    .ok (.next self
      (self.HandlePointerButtonEvent event.button false (to_int16 event.x) (to_int16 event.y)))
  else if event.type = KeyPress then
    match self.binding_handler_delegate_ with
    | some _ => .ok (.next self [.OnKey (sub_uint32 event.keycode 8) true])
    | none => .ok (.next self [])
  else if event.type = KeyRelease then
    match self.binding_handler_delegate_ with
    | some _ => .ok (.next self [.OnKey (sub_uint32 event.keycode 8) false])
    | none => .ok (.next self [])
  else if event.type = ConfigureNotify then
    let rotated : Bool := decide (self.current_rotation_ = 90 ∨ self.current_rotation_ = 270)
    let width := if rotated then event.height else event.width
    let height := if rotated then event.width else event.height
    if width ≠ self.view_properties_.width ∨ height ≠ self.view_properties_.height then
      let self := { self with
        view_properties_ := { self.view_properties_ with width := width, height := height } }
      match self.binding_handler_delegate_ with
      | some _ =>
        .ok (.next self
          [.OnWindowSizeChanged self.view_properties_.width self.view_properties_.height])
      | none => .ok (.next self [])
    else
      .ok (.next self [])
  else if event.type = ClientMessage then
    match self.native_window_ with
    | some w => .ok (.next { self with native_window_ := some (Destroy w) } [])
    | none => .error .null_native_window
  else if event.type = DestroyNotify then
    .ok .stop
  else
    .ok (.next self [])

/-- The `while (XPending(display_))` loop of `DispatchEvent` over the pending
events `queue` (head is dequeued first by `XNextEvent`). -/
def DispatchLoop (Destroy : NativeWindowX11 → NativeWindowX11)
    (self : flutter.ELinuxWindowX11) : List XEvent → Except Fault DispatchResult
  | [] => .ok { ret := true, self := self, pending := [], calls := [] }
  | event :: rest =>
    match ProcessEvent Destroy self event with
    | .error f => .error f
    | .ok .stop => .ok { ret := false, self := self, pending := rest, calls := [] }
    | .ok (.next self1 calls) =>
      match DispatchLoop Destroy self1 rest with
      | .error f => .error f
      | .ok r => .ok { r with calls := calls ++ r.calls }

/-- `DispatchEvent` (lines 55-122). `queue` are the events pending on the
display connection; `XPending` on a null `display_` is a fault. -/
def DispatchEvent (Destroy : NativeWindowX11 → NativeWindowX11)
    (self : flutter.ELinuxWindowX11) (queue : List XEvent) : Except Fault DispatchResult :=
  match self.display_ with
  | none => .error .null_display
  | some _ => DispatchLoop Destroy self queue

/-- `CreateRenderSurface` (lines 124-143). Assigning an owning pointer
releases the object it held before. -/
def CreateRenderSurface (env : CreateEnv) (self : flutter.ELinuxWindowX11)
    (width height : Int) : CreateResult :=
  let rotated : Bool := decide (self.current_rotation_ = 90 ∨ self.current_rotation_ = 270)
  let width1 := if rotated then height else width
  let height1 := if rotated then width else height
  let window : NativeWindowX11 :=
    { handle := env.window_handle
      display := self.display_
      visual_id := env.visual_id
      title := self.view_properties_.title
      width := width1
      height := height1
      valid_ := env.window_valid }
  let released1 : List Released :=
    match self.native_window_ with
    | some w => [.native_window w]
    | none => []
  let self1 := { self with native_window_ := some window }
  if !window.IsValid then
    { ret := false, self := self1, released := released1 }
  else
    let surface : SurfaceGl := { native_window_ := none, valid_ := env.surface_valid }
    let released2 : List Released :=
      match self1.render_surface_ with
      | some r => [.render_surface r]
      | none => []
    let self2 := { self1 with render_surface_ := some (surface.SetNativeWindow window) }
    { ret := true, self := self2, released := released1 ++ released2 }

/-- `DestroyRenderSurface` (lines 145-149): the new member variables and the
objects released, in order. -/
def DestroyRenderSurface (self : flutter.ELinuxWindowX11) :
    flutter.ELinuxWindowX11 × List Released :=
  let released1 : List Released :=
    match self.render_surface_ with
    | some r => [.render_surface r]
    | none => []
  let self1 := { self with render_surface_ := none }
  let released2 : List Released :=
    match self1.native_window_ with
    | some w => [.native_window w]
    | none => []
  let self2 := { self1 with native_window_ := none }
  (self2, released1 ++ released2)

/-- `SetView` (lines 151-153). -/
def SetView (self : flutter.ELinuxWindowX11) (window : Option Nat) : flutter.ELinuxWindowX11 :=
  { self with binding_handler_delegate_ := window }

/-- `GetRenderSurfaceTarget` (lines 155-157). -/
def GetRenderSurfaceTarget (self : flutter.ELinuxWindowX11) : Option SurfaceGl :=
  self.render_surface_

/-- `GetRotationDegree` (lines 159-161). -/
def GetRotationDegree (self : flutter.ELinuxWindowX11) : Nat :=
  self.current_rotation_

/-- `GetDpiScale` (lines 163-165). -/
def GetDpiScale (self : flutter.ELinuxWindowX11) : Rat :=
  self.current_scale_

/-- `GetFrameRate` (lines 171-173). -/
def GetFrameRate (_self : flutter.ELinuxWindowX11) : Int :=
  60000

/-- `UpdateFlutterCursor` (lines 175-177): no behaviour. -/
def UpdateFlutterCursor (self : flutter.ELinuxWindowX11) (_cursor_name : String) :
    flutter.ELinuxWindowX11 :=
  self

/-- `UpdateVirtualKeyboardStatus` (lines 179-181): no behaviour. -/
def UpdateVirtualKeyboardStatus (self : flutter.ELinuxWindowX11) (_show : Bool) :
    flutter.ELinuxWindowX11 :=
  self

/-- `GetClipboardData` (lines 183-185). -/
def GetClipboardData (self : flutter.ELinuxWindowX11) : String :=
  self.clipboard_data_

/-- `SetClipboardData` (lines 187-189). -/
def SetClipboardData (self : flutter.ELinuxWindowX11) (data : String) :
    flutter.ELinuxWindowX11 :=
  { self with clipboard_data_ := data }

end ELinuxWindowX11

/-- One call of a state-changing member function of the window. -/
inductive Op where
  | CreateRenderSurface (env : CreateEnv) (width height : Int)
  | DestroyRenderSurface
  | DispatchEvent (queue : List XEvent)
  | SetView (window : Option Nat)
  | SetClipboardData (data : String)

/-- The member variables after one call, and the return value when the call
is a `CreateRenderSurface` call; `none` when the call faults. -/
def Op.apply (Destroy : NativeWindowX11 → NativeWindowX11) (self : ELinuxWindowX11) :
    Op → Option (ELinuxWindowX11 × List Bool)
  | .CreateRenderSurface env width height =>
    some ((self.CreateRenderSurface env width height).self,
      [(self.CreateRenderSurface env width height).ret])
  | .DestroyRenderSurface => some (self.DestroyRenderSurface.1, [])
  | .DispatchEvent queue =>
    match self.DispatchEvent Destroy queue with
    | .ok r => some (r.self, [])
    | .error _ => none
  | .SetView window => some (self.SetView window, [])
  | .SetClipboardData data => some (self.SetClipboardData data, [])

/-- The member variables after a sequence of calls, first call first, and
the return values of the `CreateRenderSurface` calls among them, in order;
`none` when one of the calls faults. -/
def run (Destroy : NativeWindowX11 → NativeWindowX11) (self : ELinuxWindowX11) :
    List Op → Option (ELinuxWindowX11 × List Bool)
  | [] => some (self, [])
  | op :: ops =>
    match op.apply Destroy self with
    | some (self1, rets1) =>
      match run Destroy self1 ops with
      | some (self2, rets2) => some (self2, rets1 ++ rets2)
      | none => none
    | none => none

/-! ## Concrete inputs -/

/-- View properties of a 1280x720 view rotated by 90 degrees. -/
def scenario_view_properties : FlutterDesktopViewProperties :=
  { title := "flutter"
    width := 1280
    height := 720
    view_rotation := .kRotation_90
    force_scale_factor := false
    scale_factor := 1 }

/-- A window constructed with rotation 90 whose display opened, with a
delegate attached by `SetView`. -/
def scenario_window : ELinuxWindowX11 :=
  (ELinuxWindowX11.ELinuxWindowX11 scenario_view_properties (some 1)).SetView (some 1)

/-- An event of the given type with a button payload. -/
def button_event (type : Int) (button : Nat) (x y : Int) : XEvent :=
  { type := type, button := button, x := x, y := y, keycode := 0, width := 0, height := 0 }

/-- An event of the given type with a keycode payload. -/
def key_event (type : Int) (keycode : Nat) : XEvent :=
  { type := type, button := 0, x := 0, y := 0, keycode := keycode, width := 0, height := 0 }

/-- A configure event reporting the given native size. -/
def configure_event (width height : Int) : XEvent :=
  { type := ConfigureNotify, button := 0, x := 0, y := 0, keycode := 0,
    width := width, height := height }

/-- A window with a native window and a render surface: the scenario window
after a successful `CreateRenderSurface(1280,720)`. -/
def scenario_window_with_surface : ELinuxWindowX11 :=
  (scenario_window.CreateRenderSurface
    { visual_id := 33, window_handle := 1, window_valid := true, surface_valid := true }
    1280 720).self

/-- A `CreateRenderSurface` environment in which the native window cannot be
created. -/
def scenario_failing_env : CreateEnv :=
  { visual_id := 33, window_handle := 2, window_valid := false, surface_valid := true }

/-- A window whose display connection failed to open, with a delegate
attached by `SetView`. -/
def scenario_window_no_display : ELinuxWindowX11 :=
  (ELinuxWindowX11.ELinuxWindowX11 scenario_view_properties none).SetView (some 1)

/-- A `CreateRenderSurface` environment in which a second native window and a
second render surface are created. -/
def scenario_second_env : CreateEnv :=
  { visual_id := 33, window_handle := 2, window_valid := true, surface_valid := true }

/-! ## Lemmas on the dispatch loop -/

/-- Dispatching a queue of one event that leaves the `switch` by `break`. -/
theorem DispatchEvent_single_next (Destroy : NativeWindowX11 → NativeWindowX11)
    (s s1 : ELinuxWindowX11) (e : XEvent) (calls : List DelegateCall) (d : Nat)
    (hd : s.display_ = some d) (h : s.ProcessEvent Destroy e = .ok (.next s1 calls)) :
    s.DispatchEvent Destroy [e]
      = .ok { ret := true, self := s1, pending := [], calls := calls } := by
  simp [ELinuxWindowX11.DispatchEvent, hd, ELinuxWindowX11.DispatchLoop, h]

/-- The `switch` on a configure event whose rotation-adjusted size differs
from the stored size. -/
theorem ProcessEvent_configure_changed (Destroy : NativeWindowX11 → NativeWindowX11)
    (s : ELinuxWindowX11) (e : XEvent) (width height : Int)
    (he : e.type = ConfigureNotify)
    (hw : width = if s.current_rotation_ = 90 ∨ s.current_rotation_ = 270
      then e.height else e.width)
    (hh : height = if s.current_rotation_ = 90 ∨ s.current_rotation_ = 270
      then e.width else e.height)
    (hne : width ≠ s.view_properties_.width ∨ height ≠ s.view_properties_.height) :
    s.ProcessEvent Destroy e =
      .ok (.next
        { s with view_properties_ :=
            { s.view_properties_ with width := width, height := height } }
        (match s.binding_handler_delegate_ with
          | some _ => [.OnWindowSizeChanged width height]
          | none => [])) := by
  subst hw hh
  obtain ⟨vp, rot, sc, dp, dv, nw, rs, cb, dl⟩ := s
  simp only [ELinuxWindowX11.ProcessEvent, he]
  by_cases hr : rot = 90 ∨ rot = 270
  · simp only [hr, if_true] at hne
    cases dl <;> simp [hr, hne]
  · simp only [hr, if_false] at hne
    cases dl <;> simp [hr, hne]

/-- The `switch` on a configure event whose rotation-adjusted size is the
stored size. -/
theorem ProcessEvent_configure_same (Destroy : NativeWindowX11 → NativeWindowX11)
    (s : ELinuxWindowX11) (e : XEvent) (he : e.type = ConfigureNotify)
    (hw : s.view_properties_.width = if s.current_rotation_ = 90 ∨ s.current_rotation_ = 270
      then e.height else e.width)
    (hh : s.view_properties_.height = if s.current_rotation_ = 90 ∨ s.current_rotation_ = 270
      then e.width else e.height) :
    s.ProcessEvent Destroy e = .ok (.next s []) := by
  obtain ⟨vp, rot, sc, dp, dv, nw, rs, cb, dl⟩ := s
  simp only [ELinuxWindowX11.ProcessEvent, he]
  by_cases hr : rot = 90 ∨ rot = 270
  · simp only [hr, if_true] at hw hh
    simp [hr, ← hw, ← hh]
  · simp only [hr, if_false] at hw hh
    simp [hr, ← hw, ← hh]

/-- The loop over `q1 ++ q2`, when the loop over `q1` runs to the end of
`q1`, continues with the loop over `q2` from the state reached. -/
theorem DispatchLoop_append (Destroy : NativeWindowX11 → NativeWindowX11)
    (q2 : List XEvent) :
    ∀ (q1 : List XEvent) (s : ELinuxWindowX11) (r1 : DispatchResult),
      s.DispatchLoop Destroy q1 = .ok r1 → r1.ret = true →
      s.DispatchLoop Destroy (q1 ++ q2) =
        match r1.self.DispatchLoop Destroy q2 with
        | .error f => .error f
        | .ok r => .ok { r with calls := r1.calls ++ r.calls } := by
  intro q1
  induction q1 with
  | nil =>
    intro s r1 h1 _
    simp only [ELinuxWindowX11.DispatchLoop, Except.ok.injEq] at h1
    subst h1
    simp only [List.nil_append]
    cases s.DispatchLoop Destroy q2 <;> rfl
  | cons e rest ih =>
    intro s r1 h1 ht
    rw [List.cons_append]
    simp only [ELinuxWindowX11.DispatchLoop] at h1 ⊢
    cases hp : s.ProcessEvent Destroy e with
    | error f => simp [hp] at h1
    | ok st =>
      cases st with
      | stop =>
        simp only [hp, Except.ok.injEq] at h1
        subst h1
        simp at ht
      | next s1 c1 =>
        simp only [hp] at h1 ⊢
        cases hl : s1.DispatchLoop Destroy rest with
        | error f => simp [hl] at h1
        | ok r =>
          simp only [hl, Except.ok.injEq] at h1
          subst h1
          rw [ih s1 r hl ht]
          cases r.self.DispatchLoop Destroy q2 with
          | error f => rfl
          | ok r2 => simp [List.append_assoc]

/-- Frame of the `switch`: one event changes at most the stored view size
and the native window object (which stays present when it was present). -/
theorem ProcessEvent_frame (Destroy : NativeWindowX11 → NativeWindowX11)
    (s s1 : ELinuxWindowX11) (e : XEvent) (c : List DelegateCall)
    (hp : s.ProcessEvent Destroy e = .ok (.next s1 c)) :
    s1.display_ = s.display_ ∧ s1.display_valid_ = s.display_valid_ ∧
    s1.render_surface_ = s.render_surface_ ∧
    s1.native_window_.isSome = s.native_window_.isSome ∧
    s1.current_rotation_ = s.current_rotation_ ∧
    s1.current_scale_ = s.current_scale_ ∧
    s1.clipboard_data_ = s.clipboard_data_ ∧
    s1.binding_handler_delegate_ = s.binding_handler_delegate_ := by
  by_cases h7 : e.type = ConfigureNotify
  · by_cases hne :
        (if s.current_rotation_ = 90 ∨ s.current_rotation_ = 270 then e.height else e.width)
            ≠ s.view_properties_.width
          ∨ (if s.current_rotation_ = 90 ∨ s.current_rotation_ = 270 then e.width else e.height)
            ≠ s.view_properties_.height
    · rw [ProcessEvent_configure_changed Destroy s e _ _ h7 rfl rfl hne] at hp
      simp only [Except.ok.injEq, Step.next.injEq] at hp
      obtain ⟨hs, -⟩ := hp; subst hs; simp
    · simp only [not_or, not_not] at hne
      rw [ProcessEvent_configure_same Destroy s e h7 hne.1.symm hne.2.symm] at hp
      simp only [Except.ok.injEq, Step.next.injEq] at hp
      obtain ⟨hs, -⟩ := hp; subst hs; simp
  obtain ⟨vp, rot, sc, dp, dv, nw, rs, cb, dl⟩ := s
  unfold ELinuxWindowX11.ProcessEvent at hp
  by_cases h1 : e.type = EnterNotify ∨ e.type = MotionNotify
  · rw [if_pos h1] at hp
    cases dl <;> simp only [Except.ok.injEq, Step.next.injEq] at hp <;>
      (obtain ⟨hs, -⟩ := hp; subst hs; simp)
  rw [if_neg h1] at hp
  by_cases h2 : e.type = LeaveNotify
  · rw [if_pos h2] at hp
    cases dl <;> simp only [Except.ok.injEq, Step.next.injEq] at hp <;>
      (obtain ⟨hs, -⟩ := hp; subst hs; simp)
  rw [if_neg h2] at hp
  by_cases h3 : e.type = ButtonPress
  · rw [if_pos h3] at hp
    simp only [Except.ok.injEq, Step.next.injEq] at hp
    obtain ⟨hs, -⟩ := hp; subst hs; simp
  rw [if_neg h3] at hp
  by_cases h4 : e.type = ButtonRelease
  · rw [if_pos h4] at hp
    simp only [Except.ok.injEq, Step.next.injEq] at hp
    obtain ⟨hs, -⟩ := hp; subst hs; simp
  rw [if_neg h4] at hp
  by_cases h5 : e.type = KeyPress
  · rw [if_pos h5] at hp
    cases dl <;> simp only [Except.ok.injEq, Step.next.injEq] at hp <;>
      (obtain ⟨hs, -⟩ := hp; subst hs; simp)
  rw [if_neg h5] at hp
  by_cases h6 : e.type = KeyRelease
  · rw [if_pos h6] at hp
    cases dl <;> simp only [Except.ok.injEq, Step.next.injEq] at hp <;>
      (obtain ⟨hs, -⟩ := hp; subst hs; simp)
  rw [if_neg h6] at hp
  rw [if_neg h7] at hp
  by_cases h8 : e.type = ClientMessage
  · rw [if_pos h8] at hp
    cases nw with
    | none => simp at hp
    | some w =>
      simp only [Except.ok.injEq, Step.next.injEq] at hp
      obtain ⟨hs, -⟩ := hp; subst hs; simp
  rw [if_neg h8] at hp
  by_cases h9 : e.type = DestroyNotify
  · rw [if_pos h9] at hp
    simp at hp
  rw [if_neg h9] at hp
  simp only [Except.ok.injEq, Step.next.injEq] at hp
  obtain ⟨hs, -⟩ := hp; subst hs; simp

/-- Frame of the loop: a `DispatchEvent` call changes at most the stored
view size and the native window object (which stays present when it was
present). -/
theorem DispatchLoop_frame (Destroy : NativeWindowX11 → NativeWindowX11) :
    ∀ (q : List XEvent) (s : ELinuxWindowX11) (r : DispatchResult),
      s.DispatchLoop Destroy q = .ok r →
      r.self.display_ = s.display_ ∧ r.self.display_valid_ = s.display_valid_ ∧
      r.self.render_surface_ = s.render_surface_ ∧
      r.self.native_window_.isSome = s.native_window_.isSome ∧
      r.self.current_rotation_ = s.current_rotation_ ∧
      r.self.current_scale_ = s.current_scale_ ∧
      r.self.clipboard_data_ = s.clipboard_data_ ∧
      r.self.binding_handler_delegate_ = s.binding_handler_delegate_ := by
  intro q
  induction q with
  | nil =>
    intro s r h
    simp only [ELinuxWindowX11.DispatchLoop, Except.ok.injEq] at h
    subst h
    exact ⟨rfl, rfl, rfl, rfl, rfl, rfl, rfl, rfl⟩
  | cons e rest ih =>
    intro s r h
    simp only [ELinuxWindowX11.DispatchLoop] at h
    cases hp : s.ProcessEvent Destroy e with
    | error f => simp [hp] at h
    | ok st =>
      cases st with
      | stop =>
        simp only [hp, Except.ok.injEq] at h
        subst h
        exact ⟨rfl, rfl, rfl, rfl, rfl, rfl, rfl, rfl⟩
      | next s1 c1 =>
        simp only [hp] at h
        cases hl : s1.DispatchLoop Destroy rest with
        | error f => simp [hl] at h
        | ok r1 =>
          simp only [hl, Except.ok.injEq] at h
          subst h
          obtain ⟨a1, a2, a3, a4, a5, a6, a7, a8⟩ := ih s1 r1 hl
          obtain ⟨b1, b2, b3, b4, b5, b6, b7, b8⟩ := ProcessEvent_frame Destroy s s1 e c1 hp
          exact ⟨a1.trans b1, a2.trans b2, a3.trans b3, a4.trans b4, a5.trans b5,
            a6.trans b6, a7.trans b7, a8.trans b8⟩

/-- The loop never changes `display_`. -/
theorem DispatchLoop_display (Destroy : NativeWindowX11 → NativeWindowX11)
    (q : List XEvent) (s : ELinuxWindowX11) (r : DispatchResult)
    (h : s.DispatchLoop Destroy q = .ok r) : r.self.display_ = s.display_ :=
  (DispatchLoop_frame Destroy q s r h).1

/-- Dispatching `q1 ++ q2`, when dispatching `q1` returns true, is
dispatching `q1` and then `q2`. -/
theorem DispatchEvent_append (Destroy : NativeWindowX11 → NativeWindowX11)
    (s : ELinuxWindowX11) (q1 q2 : List XEvent) (r1 r2 : DispatchResult)
    (h1 : s.DispatchEvent Destroy q1 = .ok r1) (ht : r1.ret = true)
    (h2 : r1.self.DispatchEvent Destroy q2 = .ok r2) :
    s.DispatchEvent Destroy (q1 ++ q2) = .ok { r2 with calls := r1.calls ++ r2.calls } := by
  unfold ELinuxWindowX11.DispatchEvent at h1 h2 ⊢
  cases hd : s.display_ with
  | none => simp [hd] at h1
  | some d =>
    simp only [hd] at h1 ⊢
    rw [DispatchLoop_append Destroy q2 q1 s r1 h1 ht]
    cases hd1 : r1.self.display_ with
    | none => simp [hd1] at h2
    | some d1 =>
      simp only [hd1] at h2
      simp [h2]

/-- Dispatching one configure event: the stored size becomes the
rotation-adjusted size, and `OnWindowSizeChanged` is called when it differed
from the stored size and a delegate is set. -/
theorem DispatchEvent_configure (Destroy : NativeWindowX11 → NativeWindowX11)
    (s : ELinuxWindowX11) (d : Nat) (e : XEvent) (width height : Int)
    (hd : s.display_ = some d) (he : e.type = ConfigureNotify)
    (hw : width = if s.current_rotation_ = 90 ∨ s.current_rotation_ = 270
      then e.height else e.width)
    (hh : height = if s.current_rotation_ = 90 ∨ s.current_rotation_ = 270
      then e.width else e.height) :
    s.DispatchEvent Destroy [e] =
      .ok { ret := true
            self := { s with view_properties_ :=
              { s.view_properties_ with width := width, height := height } }
            pending := []
            calls :=
              if width ≠ s.view_properties_.width ∨ height ≠ s.view_properties_.height then
                match s.binding_handler_delegate_ with
                | some _ => [.OnWindowSizeChanged width height]
                | none => []
              else [] } := by
  by_cases hne : width ≠ s.view_properties_.width ∨ height ≠ s.view_properties_.height
  · rw [if_pos hne]
    exact DispatchEvent_single_next Destroy s _ e _ d hd
      (ProcessEvent_configure_changed Destroy s e width height he hw hh hne)
  · rw [if_neg hne]
    simp only [not_or, not_not] at hne
    have h := DispatchEvent_single_next Destroy s _ e _ d hd
      (ProcessEvent_configure_same Destroy s e he (hne.1 ▸ hw) (hne.2 ▸ hh))
    rw [h]
    obtain ⟨vp, rot, sc, dp, dv, nw, rs, cb, dl⟩ := s
    obtain ⟨t, wd, ht, vr, fs, sf⟩ := vp
    simp only at hne
    simp [hne.1, hne.2]

/-- Narrowing to `int16_t` keeps a value of the `int16_t` range. -/
theorem to_int16_of_range (v : Int) (hlo : -32768 ≤ v) (hhi : v ≤ 32767) :
    to_int16 v = v := by
  unfold to_int16
  omega

/-- The `switch` on a button-press event. -/
theorem ProcessEvent_button_press (Destroy : NativeWindowX11 → NativeWindowX11)
    (s : ELinuxWindowX11) (e : XEvent) (he : e.type = ButtonPress) :
    s.ProcessEvent Destroy e =
      .ok (.next s
        (s.HandlePointerButtonEvent e.button true (to_int16 e.x) (to_int16 e.y))) := by
  simp [ELinuxWindowX11.ProcessEvent, he]

/-- The `switch` on a button-release event. -/
theorem ProcessEvent_button_release (Destroy : NativeWindowX11 → NativeWindowX11)
    (s : ELinuxWindowX11) (e : XEvent) (he : e.type = ButtonRelease) :
    s.ProcessEvent Destroy e =
      .ok (.next s
        (s.HandlePointerButtonEvent e.button false (to_int16 e.x) (to_int16 e.y))) := by
  simp [ELinuxWindowX11.ProcessEvent, he]

/-- Dispatching one button-press event: the calls are those of
`HandlePointerButtonEvent` with `button_pressed` true. -/
theorem DispatchEvent_button_press (Destroy : NativeWindowX11 → NativeWindowX11)
    (s : ELinuxWindowX11) (d : Nat) (e : XEvent) (hd : s.display_ = some d)
    (he : e.type = ButtonPress) :
    s.DispatchEvent Destroy [e] =
      .ok { ret := true, self := s, pending := []
            calls := s.HandlePointerButtonEvent e.button true
              (to_int16 e.x) (to_int16 e.y) } :=
  DispatchEvent_single_next Destroy s s e _ d hd (ProcessEvent_button_press Destroy s e he)

/-- Dispatching one button-release event: the calls are those of
`HandlePointerButtonEvent` with `button_pressed` false. -/
theorem DispatchEvent_button_release (Destroy : NativeWindowX11 → NativeWindowX11)
    (s : ELinuxWindowX11) (d : Nat) (e : XEvent) (hd : s.display_ = some d)
    (he : e.type = ButtonRelease) :
    s.DispatchEvent Destroy [e] =
      .ok { ret := true, self := s, pending := []
            calls := s.HandlePointerButtonEvent e.button false
              (to_int16 e.x) (to_int16 e.y) } :=
  DispatchEvent_single_next Destroy s s e _ d hd (ProcessEvent_button_release Destroy s e he)

/-- The `switch` on a key-press event. -/
theorem ProcessEvent_key_press (Destroy : NativeWindowX11 → NativeWindowX11)
    (s : ELinuxWindowX11) (e : XEvent) (k : Nat)
    (hk : s.binding_handler_delegate_ = some k) (he : e.type = KeyPress) :
    s.ProcessEvent Destroy e = .ok (.next s [.OnKey (sub_uint32 e.keycode 8) true]) := by
  simp [ELinuxWindowX11.ProcessEvent, he, hk]

/-- The `switch` on a key-release event. -/
theorem ProcessEvent_key_release (Destroy : NativeWindowX11 → NativeWindowX11)
    (s : ELinuxWindowX11) (e : XEvent) (k : Nat)
    (hk : s.binding_handler_delegate_ = some k) (he : e.type = KeyRelease) :
    s.ProcessEvent Destroy e = .ok (.next s [.OnKey (sub_uint32 e.keycode 8) false]) := by
  simp [ELinuxWindowX11.ProcessEvent, he, hk]

/-- The `switch` on a destroy-confirmed event returns false. -/
theorem ProcessEvent_destroy (Destroy : NativeWindowX11 → NativeWindowX11)
    (s : ELinuxWindowX11) (e : XEvent) (he : e.type = DestroyNotify) :
    s.ProcessEvent Destroy e = .ok .stop := by
  simp [ELinuxWindowX11.ProcessEvent, he]

/-- With a native window present, the `switch` on any event other than
destroy-confirmed leaves by `break`. -/
theorem ProcessEvent_next_of_not_destroy (Destroy : NativeWindowX11 → NativeWindowX11)
    (s : ELinuxWindowX11) (e : XEvent) (hw : s.native_window_.isSome = true)
    (he : e.type ≠ DestroyNotify) :
    ∃ s1 c, s.ProcessEvent Destroy e = .ok (.next s1 c) := by
  by_cases h7 : e.type = ConfigureNotify
  · by_cases hne :
        (if s.current_rotation_ = 90 ∨ s.current_rotation_ = 270 then e.height else e.width)
            ≠ s.view_properties_.width
          ∨ (if s.current_rotation_ = 90 ∨ s.current_rotation_ = 270 then e.width else e.height)
            ≠ s.view_properties_.height
    · exact ⟨_, _, ProcessEvent_configure_changed Destroy s e _ _ h7 rfl rfl hne⟩
    · simp only [not_or, not_not] at hne
      exact ⟨_, _, ProcessEvent_configure_same Destroy s e h7 hne.1.symm hne.2.symm⟩
  obtain ⟨vp, rot, sc, dp, dv, nw, rs, cb, dl⟩ := s
  unfold ELinuxWindowX11.ProcessEvent
  by_cases h1 : e.type = EnterNotify ∨ e.type = MotionNotify
  · rw [if_pos h1]
    cases dl <;> exact ⟨_, _, rfl⟩
  rw [if_neg h1]
  by_cases h2 : e.type = LeaveNotify
  · rw [if_pos h2]
    cases dl <;> exact ⟨_, _, rfl⟩
  rw [if_neg h2]
  by_cases h3 : e.type = ButtonPress
  · rw [if_pos h3]
    exact ⟨_, _, rfl⟩
  rw [if_neg h3]
  by_cases h4 : e.type = ButtonRelease
  · rw [if_pos h4]
    exact ⟨_, _, rfl⟩
  rw [if_neg h4]
  by_cases h5 : e.type = KeyPress
  · rw [if_pos h5]
    cases dl <;> exact ⟨_, _, rfl⟩
  rw [if_neg h5]
  by_cases h6 : e.type = KeyRelease
  · rw [if_pos h6]
    cases dl <;> exact ⟨_, _, rfl⟩
  rw [if_neg h6, if_neg h7]
  by_cases h8 : e.type = ClientMessage
  · rw [if_pos h8]
    cases nw with
    | none => simp at hw
    | some w => exact ⟨_, _, rfl⟩
  rw [if_neg h8, if_neg he]
  exact ⟨_, _, rfl⟩

/-- With a native window present, the loop over a queue without a
destroy-confirmed event runs to the end of the queue and returns true. -/
theorem DispatchLoop_drains (Destroy : NativeWindowX11 → NativeWindowX11) :
    ∀ (q : List XEvent) (s : ELinuxWindowX11), s.native_window_.isSome = true →
      (∀ e ∈ q, e.type ≠ DestroyNotify) →
      ∃ r, s.DispatchLoop Destroy q = .ok r ∧ r.ret = true ∧ r.pending = [] ∧
        r.self.native_window_.isSome = true := by
  intro q
  induction q with
  | nil =>
    intro s hw _
    exact ⟨_, rfl, rfl, rfl, hw⟩
  | cons e rest ih =>
    intro s hw hq
    obtain ⟨s1, c, hp⟩ := ProcessEvent_next_of_not_destroy Destroy s e hw
      (hq e (List.mem_cons_self e rest))
    have hw1 : s1.native_window_.isSome = true := by
      rw [(ProcessEvent_frame Destroy s s1 e c hp).2.2.2.1]
      exact hw
    obtain ⟨r, hr, ht, hpd, hwr⟩ := ih s1 hw1 (fun x hx => hq x (List.mem_cons_of_mem e hx))
    refine ⟨{ r with calls := c ++ r.calls }, ?_, ht, hpd, hwr⟩
    simp only [ELinuxWindowX11.DispatchLoop, hp, hr]

/-- A list holding an element with property `p` splits at the first such
element. -/
theorem split_at_first {α : Type} (p : α → Prop) :
    ∀ (l : List α), (∃ a ∈ l, p a) →
      ∃ l1 a l2, l = l1 ++ a :: l2 ∧ p a ∧ ∀ b ∈ l1, ¬ p b := by
  intro l
  induction l with
  | nil =>
    rintro ⟨a, ha, -⟩
    simp at ha
  | cons x rest ih =>
    rintro ⟨a, ha, hpa⟩
    by_cases hx : p x
    · exact ⟨[], x, rest, rfl, hx, by simp⟩
    · have hrest : ∃ a ∈ rest, p a := by
        rcases List.mem_cons.1 ha with rfl | h
        · exact absurd hpa hx
        · exact ⟨a, h, hpa⟩
      obtain ⟨l1, b, l2, hl, hb, hl1⟩ := ih hrest
      refine ⟨x :: l1, b, l2, by simp [hl], hb, ?_⟩
      intro c hc
      rcases List.mem_cons.1 hc with rfl | h
      · exact hx
      · exact hl1 c h

/-! ## Lemmas on validity and the surface lifecycle -/

/-- `IsValid` is the conjunction of its five conditions. -/
theorem IsValid_iff (s : ELinuxWindowX11) :
    s.IsValid = true ↔
      s.display_valid_ = true ∧
      (∃ w, s.native_window_ = some w ∧ w.IsValid = true) ∧
      (∃ r, s.render_surface_ = some r ∧ r.IsValid = true) := by
  obtain ⟨vp, rot, sc, dp, dv, nw, rs, cb, dl⟩ := s
  cases dv <;> cases nw <;> cases rs <;> simp [ELinuxWindowX11.IsValid]

/-- Without a render surface the window is not valid. -/
theorem IsValid_false_of_no_surface (s : ELinuxWindowX11) (h : s.render_surface_ = none) :
    s.IsValid = false := by
  cases hv : s.IsValid with
  | false => rfl
  | true =>
    obtain ⟨-, -, r, hr, -⟩ := (IsValid_iff s).1 hv
    rw [h] at hr
    cases hr

/-- `CreateRenderSurface` returns the answer of `IsValid()` of the native
window it constructed. -/
theorem CreateRenderSurface_ret (env : CreateEnv) (s : ELinuxWindowX11) (width height : Int) :
    (s.CreateRenderSurface env width height).ret = env.window_valid := by
  unfold ELinuxWindowX11.CreateRenderSurface
  cases hv : env.window_valid <;> simp [NativeWindowX11.IsValid, hv]

/-- A `CreateRenderSurface` call that returns false leaves `render_surface_`
as it was. -/
theorem CreateRenderSurface_false_surface (env : CreateEnv) (s : ELinuxWindowX11)
    (width height : Int) (h : (s.CreateRenderSurface env width height).ret = false) :
    (s.CreateRenderSurface env width height).self.render_surface_ = s.render_surface_ := by
  rw [CreateRenderSurface_ret] at h
  unfold ELinuxWindowX11.CreateRenderSurface
  simp [NativeWindowX11.IsValid, h]

/-- A call that is not a `CreateRenderSurface` returning true leaves a
window without render surface without render surface. -/
theorem Op_apply_no_surface (Destroy : NativeWindowX11 → NativeWindowX11)
    (s t : ELinuxWindowX11) (op : Op) (rets : List Bool) (hs : s.render_surface_ = none)
    (h : op.apply Destroy s = some (t, rets)) (hr : ∀ b ∈ rets, b = false) :
    t.render_surface_ = none := by
  cases op with
  | CreateRenderSurface env width height =>
    simp only [Op.apply, Option.some.injEq, Prod.mk.injEq] at h
    obtain ⟨h1, h2⟩ := h
    subst h1 h2
    rw [CreateRenderSurface_false_surface env s width height
      (hr _ (List.mem_singleton_self _)), hs]
  | DestroyRenderSurface =>
    simp only [Op.apply, Option.some.injEq, Prod.mk.injEq] at h
    obtain ⟨h1, -⟩ := h
    subst h1
    rfl
  | DispatchEvent queue =>
    simp only [Op.apply] at h
    cases hq : s.DispatchEvent Destroy queue with
    | error f => simp [hq] at h
    | ok r =>
      simp only [hq, Option.some.injEq, Prod.mk.injEq] at h
      obtain ⟨h1, -⟩ := h
      subst h1
      unfold ELinuxWindowX11.DispatchEvent at hq
      cases hd : s.display_ with
      | none => simp [hd] at hq
      | some d =>
        simp only [hd] at hq
        rw [(DispatchLoop_frame Destroy queue s r hq).2.2.1, hs]
  | SetView window =>
    simp only [Op.apply, Option.some.injEq, Prod.mk.injEq] at h
    obtain ⟨h1, -⟩ := h
    subst h1
    exact hs
  | SetClipboardData data =>
    simp only [Op.apply, Option.some.injEq, Prod.mk.injEq] at h
    obtain ⟨h1, -⟩ := h
    subst h1
    exact hs

/-- From a window without render surface, a sequence of calls in which every
`CreateRenderSurface` call returned false ends without render surface. -/
theorem run_no_surface (Destroy : NativeWindowX11 → NativeWindowX11) :
    ∀ (ops : List Op) (s t : ELinuxWindowX11) (rets : List Bool),
      s.render_surface_ = none → run Destroy s ops = some (t, rets) →
      (∀ b ∈ rets, b = false) → t.render_surface_ = none := by
  intro ops
  induction ops with
  | nil =>
    intro s t rets hs h _
    simp only [run, Option.some.injEq, Prod.mk.injEq] at h
    rw [← h.1]
    exact hs
  | cons op rest ih =>
    intro s t rets hs h hr
    simp only [run] at h
    cases ha : op.apply Destroy s with
    | none => simp [ha] at h
    | some p1 =>
      obtain ⟨s1, rets1⟩ := p1
      simp only [ha] at h
      cases hrest : run Destroy s1 rest with
      | none => simp [hrest] at h
      | some p2 =>
        obtain ⟨s2, rets2⟩ := p2
        simp only [hrest, Option.some.injEq, Prod.mk.injEq] at h
        obtain ⟨h1, h2⟩ := h
        subst h1 h2
        have hs1 := Op_apply_no_surface Destroy s s1 op rets1 hs ha
          (fun b hb => hr b (List.mem_append_left rets2 hb))
        exact ih s1 s2 rets2 hs1 hrest (fun b hb => hr b (List.mem_append_right rets1 hb))

/-- A sequence of `CreateRenderSurface` calls never faults. -/
theorem run_create_total (Destroy : NativeWindowX11 → NativeWindowX11) :
    ∀ (attempts : List (CreateEnv × Int × Int)) (s : ELinuxWindowX11),
      ∃ t rets,
        run Destroy s (attempts.map fun a => Op.CreateRenderSurface a.1 a.2.1 a.2.2)
          = some (t, rets) ∧
        rets.length = attempts.length := by
  intro attempts
  induction attempts with
  | nil =>
    intro s
    exact ⟨s, [], rfl, rfl⟩
  | cons a rest ih =>
    intro s
    obtain ⟨t, rets, hrun, hlen⟩ := ih (s.CreateRenderSurface a.1 a.2.1 a.2.2).self
    refine ⟨t, (s.CreateRenderSurface a.1 a.2.1 a.2.2).ret :: rets, ?_, by simp [hlen]⟩
    simp only [List.map_cons, run, Op.apply, hrun, List.singleton_append]

/-! ## Configure events -/

/-- C1: for every window state with an open display connection and every
configure event reporting the native size (w,h), `DispatchEvent` on that
event returns, and afterwards the stored view size is (w,h) when the current
rotation is 0 or 180 and (h,w) when it is 90 or 270. -/
theorem C1_configure_stores_rotation_adjusted_size
    (Destroy : NativeWindowX11 → NativeWindowX11) (s : ELinuxWindowX11) (d : Nat)
    (e : XEvent) (hd : s.display_ = some d) (he : e.type = ConfigureNotify) :
    ∃ r, s.DispatchEvent Destroy [e] = .ok r ∧ r.ret = true ∧ r.pending = [] ∧
      r.self.current_rotation_ = s.current_rotation_ ∧
      (s.current_rotation_ = 0 ∨ s.current_rotation_ = 180 →
        r.self.view_properties_.width = e.width ∧
        r.self.view_properties_.height = e.height) ∧
      (s.current_rotation_ = 90 ∨ s.current_rotation_ = 270 →
        r.self.view_properties_.width = e.height ∧
        r.self.view_properties_.height = e.width) := by
  refine ⟨_, DispatchEvent_configure Destroy s d e _ _ hd he rfl rfl, rfl, rfl, rfl, ?_, ?_⟩
  · intro h
    have hn : ¬ (s.current_rotation_ = 90 ∨ s.current_rotation_ = 270) := by omega
    simp [hn]
  · intro h
    simp [h]

/-- Witness of C1: the window constructed with rotation 90 stores (800,480)
after a configure event reporting (480,800). -/
theorem C1_configure_stores_rotation_adjusted_size_witness :
    ∃ r, scenario_window.DispatchEvent id [configure_event 480 800] = .ok r ∧
      r.self.view_properties_.width = 800 ∧ r.self.view_properties_.height = 480 := by
  obtain ⟨r, hr, _, _, _, _, h90⟩ :=
    C1_configure_stores_rotation_adjusted_size id scenario_window 1
      (configure_event 480 800) rfl rfl
  exact ⟨r, hr, h90 (Or.inl rfl)⟩

/-- C2: with a delegate set, `DispatchEvent` on a configure event calls
`OnWindowSizeChanged` exactly once, with the rotation-adjusted size
(width,height), when that size differs from the stored size, and makes no
call when it does not; in both cases the stored size becomes (width,height).
The same configure event twice in a row (in one queue, or in two
`DispatchEvent` calls) gives at most one call in total. -/
theorem C2_size_changed_iff_adjusted_size_differs
    (Destroy : NativeWindowX11 → NativeWindowX11) (s : ELinuxWindowX11) (d k : Nat)
    (e : XEvent) (width height : Int) (hd : s.display_ = some d)
    (hk : s.binding_handler_delegate_ = some k) (he : e.type = ConfigureNotify)
    (hw : width = if s.current_rotation_ = 90 ∨ s.current_rotation_ = 270
      then e.height else e.width)
    (hh : height = if s.current_rotation_ = 90 ∨ s.current_rotation_ = 270
      then e.width else e.height) :
    (∃ r, s.DispatchEvent Destroy [e] = .ok r ∧
      r.self.view_properties_.width = width ∧ r.self.view_properties_.height = height ∧
      (width ≠ s.view_properties_.width ∨ height ≠ s.view_properties_.height →
        r.calls = [DelegateCall.OnWindowSizeChanged width height]) ∧
      (width = s.view_properties_.width ∧ height = s.view_properties_.height →
        r.calls = [])) ∧
    (∃ r, s.DispatchEvent Destroy [e, e] = .ok r ∧ r.calls.length ≤ 1) ∧
    (∃ r1 r2, s.DispatchEvent Destroy [e] = .ok r1 ∧
      r1.self.DispatchEvent Destroy [e] = .ok r2 ∧
      (r1.calls ++ r2.calls).length ≤ 1) := by
  have h1 := DispatchEvent_configure Destroy s d e width height hd he hw hh
  have h2 := DispatchEvent_configure Destroy
    { s with view_properties_ := { s.view_properties_ with width := width, height := height } }
    d e width height hd he hw hh
  simp only [ne_eq, not_true_eq_false, or_self, if_false] at h2
  refine ⟨⟨_, h1, rfl, rfl, ?_, ?_⟩, ?_, ⟨_, _, h1, h2, ?_⟩⟩
  · intro hne
    simp [hne, hk]
  · intro heq
    simp [heq.1, heq.2]
  · refine ⟨_, DispatchEvent_append Destroy s [e] [e] _ _ h1 rfl h2, ?_⟩
    simp only [hk, List.append_nil]
    split <;> simp
  · simp only [hk, List.append_nil]
    split <;> simp

/-- Witness of C2 (the scenario of the specification): the window constructed
with rotation 90 stores another size than (800,480); a configure event
reporting width 480 and height 800 gives the stored size (800,480) and
exactly one `OnWindowSizeChanged(800,480)`. -/
theorem C2_size_changed_iff_adjusted_size_differs_witness :
    scenario_window.current_rotation_ = 90 ∧
    (scenario_window.view_properties_.width ≠ 800 ∨
      scenario_window.view_properties_.height ≠ 480) ∧
    ∃ r, scenario_window.DispatchEvent id [configure_event 480 800] = .ok r ∧
      r.self.view_properties_.width = 800 ∧ r.self.view_properties_.height = 480 ∧
      r.calls = [DelegateCall.OnWindowSizeChanged 800 480] := by
  have hne : (800 : Int) ≠ scenario_window.view_properties_.width ∨
      (480 : Int) ≠ scenario_window.view_properties_.height := Or.inl (by decide)
  obtain ⟨r, hr, hw, hh, hc, _⟩ :=
    (C2_size_changed_iff_adjusted_size_differs id scenario_window 1 1
      (configure_event 480 800) 800 480 rfl rfl rfl rfl rfl).1
  exact ⟨rfl, Or.inl (by decide), r, hr, hw, hh, hc hne⟩

/-! ## Pointer buttons -/

/-- C3: with a delegate set, for every position (x,y), a press of button b
in 1, 2, 3, 8, 9 makes exactly the call `OnPointerDown(x,y,L(b))` and a
release exactly the call `OnPointerUp(x,y,L(b))`, where L maps 1 to primary,
2 to middle, 3 to secondary, 8 to back and 9 to forward; a press or release
of a button outside 1..9 makes no delegate call. -/
theorem C3_button_press_release_mapping (s : ELinuxWindowX11) (k : Nat)
    (hk : s.binding_handler_delegate_ = some k) (x y : Int) :
    (s.HandlePointerButtonEvent 1 true x y
        = [.OnPointerDown x y .kFlutterPointerButtonMousePrimary] ∧
      s.HandlePointerButtonEvent 1 false x y
        = [.OnPointerUp x y .kFlutterPointerButtonMousePrimary]) ∧
    (s.HandlePointerButtonEvent 2 true x y
        = [.OnPointerDown x y .kFlutterPointerButtonMouseMiddle] ∧
      s.HandlePointerButtonEvent 2 false x y
        = [.OnPointerUp x y .kFlutterPointerButtonMouseMiddle]) ∧
    (s.HandlePointerButtonEvent 3 true x y
        = [.OnPointerDown x y .kFlutterPointerButtonMouseSecondary] ∧
      s.HandlePointerButtonEvent 3 false x y
        = [.OnPointerUp x y .kFlutterPointerButtonMouseSecondary]) ∧
    (s.HandlePointerButtonEvent 8 true x y
        = [.OnPointerDown x y .kFlutterPointerButtonMouseBack] ∧
      s.HandlePointerButtonEvent 8 false x y
        = [.OnPointerUp x y .kFlutterPointerButtonMouseBack]) ∧
    (s.HandlePointerButtonEvent 9 true x y
        = [.OnPointerDown x y .kFlutterPointerButtonMouseForward] ∧
      s.HandlePointerButtonEvent 9 false x y
        = [.OnPointerUp x y .kFlutterPointerButtonMouseForward]) ∧
    (∀ (b : Nat) (pressed : Bool), b < 1 ∨ 9 < b →
      s.HandlePointerButtonEvent b pressed x y = []) := by
  refine ⟨?_, ?_, ?_, ?_, ?_, ?_⟩
  · simp [ELinuxWindowX11.HandlePointerButtonEvent, hk]
  · simp [ELinuxWindowX11.HandlePointerButtonEvent, hk]
  · simp [ELinuxWindowX11.HandlePointerButtonEvent, hk]
  · simp [ELinuxWindowX11.HandlePointerButtonEvent, hk]
  · simp [ELinuxWindowX11.HandlePointerButtonEvent, hk]
  · intro b pressed hb
    have h1 : b ≠ 1 := by omega
    have h2 : b ≠ 2 := by omega
    have h3 : b ≠ 3 := by omega
    have h4 : b ≠ 4 := by omega
    have h5 : b ≠ 5 := by omega
    have h6 : b ≠ 6 := by omega
    have h7 : b ≠ 7 := by omega
    have h8 : b ≠ 8 := by omega
    have h9 : b ≠ 9 := by omega
    simp [ELinuxWindowX11.HandlePointerButtonEvent, hk, h1, h2, h3, h4, h5, h6, h7, h8, h9]

/-- Witness of C3: on the scenario window a press of button 8 at (10,20) is
`OnPointerDown(10,20,back)` and a press of button 0 makes no call. -/
theorem C3_button_press_release_mapping_witness :
    scenario_window.HandlePointerButtonEvent 8 true 10 20
      = [.OnPointerDown 10 20 .kFlutterPointerButtonMouseBack] ∧
    scenario_window.HandlePointerButtonEvent 0 true 10 20 = [] :=
  have h := C3_button_press_release_mapping scenario_window 1 rfl 10 20
  ⟨h.2.2.2.1.1, h.2.2.2.2.2 0 true (Or.inl (by decide))⟩

/-- C4: with a delegate set, for every position (x,y) and every press or
release of a button b in 4, 5, 6, 7, exactly one delegate call is made, an
`OnScroll(x,y,dx,dy,20)`: for b in 4, 5 it has dx = 0 and dy of magnitude 1,
for b in 6, 7 it has dy = 0 and dx of magnitude 1. -/
theorem C4_scroll_buttons_one_unit_scroll (s : ELinuxWindowX11) (k : Nat)
    (hk : s.binding_handler_delegate_ = some k) (x y : Int) (b : Nat) (pressed : Bool)
    (hb : b = 4 ∨ b = 5 ∨ b = 6 ∨ b = 7) :
    ∃ dx dy : Int,
      s.HandlePointerButtonEvent b pressed x y = [.OnScroll x y dx dy 20] ∧
      (b = 4 ∨ b = 5 → dx = 0 ∧ dy.natAbs = 1) ∧
      (b = 6 ∨ b = 7 → dy = 0 ∧ dx.natAbs = 1) := by
  rcases hb with rfl | rfl | rfl | rfl
  · exact ⟨0, -1, by simp [ELinuxWindowX11.HandlePointerButtonEvent, hk], by simp, by simp⟩
  · exact ⟨0, 1, by simp [ELinuxWindowX11.HandlePointerButtonEvent, hk], by simp, by simp⟩
  · exact ⟨-1, 0, by simp [ELinuxWindowX11.HandlePointerButtonEvent, hk], by simp, by simp⟩
  · exact ⟨-1, 0, by simp [ELinuxWindowX11.HandlePointerButtonEvent, hk], by simp, by simp⟩

/-- Witness of C4: a release of button 4 at (10,20) on the scenario window. -/
theorem C4_scroll_buttons_one_unit_scroll_witness :
    ∃ dx dy : Int,
      scenario_window.HandlePointerButtonEvent 4 false 10 20 = [.OnScroll 10 20 dx dy 20] ∧
      (4 = 4 ∨ 4 = 5 → dx = 0 ∧ dy.natAbs = 1) ∧
      (4 = 6 ∨ 4 = 7 → dy = 0 ∧ dx.natAbs = 1) :=
  C4_scroll_buttons_one_unit_scroll scenario_window 1 rfl 10 20 4 false (Or.inl rfl)

/-- C5 (the code at the failing input): a press of button 7 delivers the
same `OnScroll(x,y,-1,0,20)` as a press of button 6, so the horizontal delta
of button 7 is not the negation of the delta of button 6; vertically button 4
delivers -1 and button 5 delivers +1. -/
theorem C5_button7_delta_equals_button6_delta :
    scenario_window.HandlePointerButtonEvent 6 true 10 20 = [.OnScroll 10 20 (-1) 0 20] ∧
    scenario_window.HandlePointerButtonEvent 7 true 10 20 = [.OnScroll 10 20 (-1) 0 20] ∧
    scenario_window.HandlePointerButtonEvent 4 true 10 20 = [.OnScroll 10 20 0 (-1) 20] ∧
    scenario_window.HandlePointerButtonEvent 5 true 10 20 = [.OnScroll 10 20 0 1 20] := by
  refine ⟨?_, ?_, ?_, ?_⟩ <;> rfl

/-- C6 (counterexample): on the scenario window, a press followed by a
release of button 5 at (10,20) makes two `OnScroll(10,20,0,+1,20)` calls, not
one. -/
theorem C6_press_release_button5_counterexample :
    scenario_window.DispatchEvent id
        [button_event ButtonPress 5 10 20, button_event ButtonRelease 5 10 20]
      = .ok { ret := true
              self := scenario_window
              pending := []
              calls := [.OnScroll 10 20 0 1 20, .OnScroll 10 20 0 1 20] } ∧
    [DelegateCall.OnScroll 10 20 0 1 20, DelegateCall.OnScroll 10 20 0 1 20]
      ≠ [DelegateCall.OnScroll 10 20 0 1 20] := by
  constructor
  · rfl
  · decide

/-- C6 (amended): with a delegate set, for every position (x,y) of the
`int16_t` range, a press event followed by a release event of button 5 at
(x,y) makes in total exactly two delegate calls, one per event, each equal to
`OnScroll(x,y,0,+1,20)`, and no `OnPointerDown` or `OnPointerUp` call; this
holds for both events in one queue and for one `DispatchEvent` call each. -/
theorem C6_press_release_button5_two_scrolls
    (Destroy : NativeWindowX11 → NativeWindowX11) (s : ELinuxWindowX11) (d k : Nat)
    (press release : XEvent) (x y : Int)
    (hd : s.display_ = some d) (hk : s.binding_handler_delegate_ = some k)
    (hpt : press.type = ButtonPress) (hpb : press.button = 5)
    (hpx : press.x = x) (hpy : press.y = y)
    (hrt : release.type = ButtonRelease) (hrb : release.button = 5)
    (hrx : release.x = x) (hry : release.y = y)
    (hx : -32768 ≤ x ∧ x ≤ 32767) (hy : -32768 ≤ y ∧ y ≤ 32767) :
    s.DispatchEvent Destroy [press, release]
      = .ok { ret := true
              self := s
              pending := []
              calls := [.OnScroll x y 0 1 20, .OnScroll x y 0 1 20] } ∧
    s.DispatchEvent Destroy [press]
      = .ok { ret := true, self := s, pending := [], calls := [.OnScroll x y 0 1 20] } ∧
    s.DispatchEvent Destroy [release]
      = .ok { ret := true, self := s, pending := [], calls := [.OnScroll x y 0 1 20] } := by
  have hs : s.HandlePointerButtonEvent 5 true x y = [.OnScroll x y 0 1 20] := by
    simp [ELinuxWindowX11.HandlePointerButtonEvent, hk]
  have hs2 : s.HandlePointerButtonEvent 5 false x y = [.OnScroll x y 0 1 20] := by
    simp [ELinuxWindowX11.HandlePointerButtonEvent, hk]
  have h1 := ProcessEvent_button_press Destroy s press hpt
  have h2 := ProcessEvent_button_release Destroy s release hrt
  rw [hpb, hpx, hpy, to_int16_of_range x hx.1 hx.2, to_int16_of_range y hy.1 hy.2, hs] at h1
  rw [hrb, hrx, hry, to_int16_of_range x hx.1 hx.2, to_int16_of_range y hy.1 hy.2, hs2] at h2
  have d1 := DispatchEvent_single_next Destroy s s press _ d hd h1
  have d2 := DispatchEvent_single_next Destroy s s release _ d hd h2
  exact ⟨DispatchEvent_append Destroy s [press] [release] _ _ d1 rfl d2, d1, d2⟩

/-- Witness of C6 (amended) at (10,20) on the scenario window. -/
theorem C6_press_release_button5_two_scrolls_witness :
    scenario_window.DispatchEvent id
        [button_event ButtonPress 5 10 20, button_event ButtonRelease 5 10 20]
      = .ok { ret := true
              self := scenario_window
              pending := []
              calls := [.OnScroll 10 20 0 1 20, .OnScroll 10 20 0 1 20] } :=
  (C6_press_release_button5_two_scrolls id scenario_window 1 1
    (button_event ButtonPress 5 10 20) (button_event ButtonRelease 5 10 20) 10 20
    rfl rfl rfl rfl rfl rfl rfl rfl rfl rfl
    ⟨by decide, by decide⟩ ⟨by decide, by decide⟩).1

/-! ## The dispatch loop -/

/-- C7: on a window with an open display connection and a native window, for
every queue of pending events: (a) when no event of the queue is
destroy-confirmed, `DispatchEvent` returns true with the queue empty, and it
processed the events in order (dispatching the queue is dispatching any
prefix, then the rest); (b) when the queue holds a destroy-confirmed event,
`DispatchEvent` returns false; (c) it returns false on dequeuing the first
destroy-confirmed event: the events before it were processed as by a
`DispatchEvent` call returning true, the events after it stay pending. -/
theorem C7_dispatch_drains_or_stops_at_first_destroy
    (Destroy : NativeWindowX11 → NativeWindowX11) (s : ELinuxWindowX11) (d : Nat)
    (w : NativeWindowX11) (hd : s.display_ = some d) (hw : s.native_window_ = some w)
    (queue : List XEvent) :
    ((∀ e ∈ queue, e.type ≠ DestroyNotify) →
      (∃ r, s.DispatchEvent Destroy queue = .ok r ∧ r.ret = true ∧ r.pending = []) ∧
      (∀ q1 q2, queue = q1 ++ q2 →
        ∃ r1 r2, s.DispatchEvent Destroy q1 = .ok r1 ∧ r1.ret = true ∧
          r1.self.DispatchEvent Destroy q2 = .ok r2 ∧
          s.DispatchEvent Destroy queue = .ok { r2 with calls := r1.calls ++ r2.calls })) ∧
    ((∃ e ∈ queue, e.type = DestroyNotify) →
      ∃ r, s.DispatchEvent Destroy queue = .ok r ∧ r.ret = false) ∧
    (∀ q1 e q2, queue = q1 ++ e :: q2 → (∀ b ∈ q1, b.type ≠ DestroyNotify) →
      e.type = DestroyNotify →
      ∃ r1, s.DispatchEvent Destroy q1 = .ok r1 ∧ r1.ret = true ∧ r1.pending = [] ∧
        s.DispatchEvent Destroy queue
          = .ok { ret := false, self := r1.self, pending := q2, calls := r1.calls }) := by
  have hws : s.native_window_.isSome = true := by simp [hw]
  have drains : ∀ (t : ELinuxWindowX11) (q : List XEvent), t.display_ = some d →
      t.native_window_.isSome = true → (∀ e ∈ q, e.type ≠ DestroyNotify) →
      ∃ r, t.DispatchEvent Destroy q = .ok r ∧ r.ret = true ∧ r.pending = [] ∧
        r.self.native_window_.isSome = true ∧ r.self.display_ = some d := by
    intro t q htd htw hq
    obtain ⟨r, hr, ht, hp, hwr⟩ := DispatchLoop_drains Destroy q t htw hq
    refine ⟨r, ?_, ht, hp, hwr, ?_⟩
    · simp [ELinuxWindowX11.DispatchEvent, htd, hr]
    · rw [DispatchLoop_display Destroy q t r hr, htd]
  have stops : ∀ q1 e q2, queue = q1 ++ e :: q2 → (∀ b ∈ q1, b.type ≠ DestroyNotify) →
      e.type = DestroyNotify →
      ∃ r1, s.DispatchEvent Destroy q1 = .ok r1 ∧ r1.ret = true ∧ r1.pending = [] ∧
        s.DispatchEvent Destroy queue
          = .ok { ret := false, self := r1.self, pending := q2, calls := r1.calls } := by
    intro q1 e q2 hq hq1 he
    obtain ⟨r1, hr1, ht1, hp1, -, hd1⟩ := drains s q1 hd hws hq1
    refine ⟨r1, hr1, ht1, hp1, ?_⟩
    have h2 : r1.self.DispatchEvent Destroy (e :: q2)
        = .ok { ret := false, self := r1.self, pending := q2, calls := [] } := by
      simp [ELinuxWindowX11.DispatchEvent, hd1, ELinuxWindowX11.DispatchLoop,
        ProcessEvent_destroy Destroy r1.self e he]
    rw [hq, DispatchEvent_append Destroy s q1 (e :: q2) _ _ hr1 ht1 h2]
    simp
  refine ⟨?_, ?_, stops⟩
  · intro hq
    obtain ⟨r, hr, ht, hp, -, -⟩ := drains s queue hd hws hq
    refine ⟨⟨r, hr, ht, hp⟩, ?_⟩
    intro q1 q2 hsplit
    subst hsplit
    obtain ⟨r1, hr1, ht1, -, hw1, hd1⟩ := drains s q1 hd hws
      (fun e he => hq e (List.mem_append_left q2 he))
    obtain ⟨r2, hr2, -, -, -, -⟩ := drains r1.self q2 hd1 hw1
      (fun e he => hq e (List.mem_append_right q1 he))
    exact ⟨r1, r2, hr1, ht1, hr2, DispatchEvent_append Destroy s q1 q2 r1 r2 hr1 ht1 hr2⟩
  · intro hex
    obtain ⟨q1, e, q2, hq, he, hq1⟩ :=
      split_at_first (fun e : XEvent => e.type = DestroyNotify) queue hex
    obtain ⟨r1, -, -, -, hr⟩ := stops q1 e q2 hq hq1 he
    exact ⟨_, hr, rfl⟩

/-- Witness of C7: a key press, a destroy-confirmed event and a button press
are pending; `DispatchEvent` processes the key press, returns false on the
destroy-confirmed event and leaves the button press pending. -/
theorem C7_dispatch_drains_or_stops_at_first_destroy_witness :
    ∃ r1, scenario_window_with_surface.DispatchEvent id [key_event KeyPress 38] = .ok r1 ∧
      r1.ret = true ∧ r1.pending = [] ∧
      scenario_window_with_surface.DispatchEvent id
          [key_event KeyPress 38, key_event DestroyNotify 0, button_event ButtonPress 1 10 20]
        = .ok { ret := false, self := r1.self
                pending := [button_event ButtonPress 1 10 20], calls := r1.calls } :=
  (C7_dispatch_drains_or_stops_at_first_destroy id scenario_window_with_surface 1 _ rfl rfl
    [key_event KeyPress 38, key_event DestroyNotify 0, button_event ButtonPress 1 10 20]).2.2
    [key_event KeyPress 38] (key_event DestroyNotify 0) [button_event ButtonPress 1 10 20]
    rfl (by decide) rfl

/-! ## Key events -/

/-- C8: with a delegate set, for every raw keycode k below 2^32, a key-press
event makes exactly the call `OnKey(c, true)` and a key-release event exactly
the call `OnKey(c, false)`, where c is k - 8 in unsigned 32-bit arithmetic:
k - 8 for k >= 8, and (k - 8) mod 2^32, that is k + 2^32 - 8, for k < 8. -/
theorem C8_key_events_normalised_keycode
    (Destroy : NativeWindowX11 → NativeWindowX11) (s : ELinuxWindowX11) (d k : Nat)
    (e : XEvent) (hd : s.display_ = some d) (hk : s.binding_handler_delegate_ = some k)
    (hrange : e.keycode < 4294967296) :
    ∃ c : Nat,
      (8 ≤ e.keycode → c = e.keycode - 8) ∧
      (e.keycode < 8 → c = e.keycode + 4294967296 - 8) ∧
      (c : Int) = ((e.keycode : Int) - 8) % 4294967296 ∧
      (e.type = KeyPress →
        s.DispatchEvent Destroy [e]
          = .ok { ret := true, self := s, pending := [], calls := [.OnKey c true] }) ∧
      (e.type = KeyRelease →
        s.DispatchEvent Destroy [e]
          = .ok { ret := true, self := s, pending := [], calls := [.OnKey c false] }) := by
  refine ⟨sub_uint32 e.keycode 8, ?_, ?_, ?_, ?_, ?_⟩
  · intro h
    unfold sub_uint32
    omega
  · intro h
    unfold sub_uint32
    omega
  · unfold sub_uint32
    omega
  · intro he
    exact DispatchEvent_single_next Destroy s s e _ d hd
      (ProcessEvent_key_press Destroy s e k hk he)
  · intro he
    exact DispatchEvent_single_next Destroy s s e _ d hd
      (ProcessEvent_key_release Destroy s e k hk he)

/-- Witness of C8: raw keycode 38 is delivered as 30, raw keycode 3 as
2^32 - 5. -/
theorem C8_key_events_normalised_keycode_witness :
    scenario_window.DispatchEvent id [key_event KeyPress 38]
      = .ok { ret := true, self := scenario_window, pending := [],
              calls := [.OnKey 30 true] } ∧
    scenario_window.DispatchEvent id [key_event KeyRelease 3]
      = .ok { ret := true, self := scenario_window, pending := [],
              calls := [.OnKey 4294967291 false] } := by
  obtain ⟨c, hc, -, -, hp, -⟩ := C8_key_events_normalised_keycode id scenario_window 1 1
    (key_event KeyPress 38) rfl rfl (by decide)
  have hc1 : c = 30 := hc (by decide)
  subst hc1
  exact ⟨hp rfl, rfl⟩

/-! ## Validity -/

/-- C9: `IsValid()` is true exactly when the display validity flag is set, a
native window is present and answers valid, and a render surface is present
and answers valid; when one of these five conditions fails it is false. -/
theorem C9_IsValid_iff_all_five_conditions (s : ELinuxWindowX11) :
    (s.IsValid = true ↔
      s.display_valid_ = true ∧
      (∃ w, s.native_window_ = some w ∧ w.IsValid = true) ∧
      (∃ r, s.render_surface_ = some r ∧ r.IsValid = true)) ∧
    (s.display_valid_ = false ∨ s.native_window_ = none ∨ s.render_surface_ = none ∨
        (∃ w, s.native_window_ = some w ∧ w.IsValid = false) ∨
        (∃ r, s.render_surface_ = some r ∧ r.IsValid = false) →
      s.IsValid = false) := by
  refine ⟨IsValid_iff s, ?_⟩
  intro h
  cases hv : s.IsValid with
  | false => rfl
  | true =>
    obtain ⟨h1, ⟨w, hw, hwv⟩, ⟨r, hr, hrv⟩⟩ := (IsValid_iff s).1 hv
    rcases h with h | h | h | ⟨w1, hw1, hwv1⟩ | ⟨r1, hr1, hrv1⟩
    · rw [h1] at h; cases h
    · rw [hw] at h; cases h
    · rw [hr] at h; cases h
    · rw [hw] at hw1
      cases hw1
      rw [hwv] at hwv1; cases hwv1
    · rw [hr] at hr1
      cases hr1
      rw [hrv] at hrv1; cases hrv1

/-- Witness of C9: the scenario window with a valid native window and a
valid render surface is valid; without a render surface it is not. -/
theorem C9_IsValid_iff_all_five_conditions_witness :
    scenario_window_with_surface.IsValid = true ∧ scenario_window.IsValid = false :=
  ⟨(C9_IsValid_iff_all_five_conditions scenario_window_with_surface).1.2
      ⟨rfl, ⟨_, rfl, rfl⟩, ⟨_, rfl, rfl⟩⟩,
    (C9_IsValid_iff_all_five_conditions scenario_window).2 (Or.inr (Or.inr (Or.inl rfl)))⟩

/-- C10: `IsValid()` is false in the state produced by a constructor whose
display open failed; for every window state it is false right after
`DestroyRenderSurface()`; a sequence of `CreateRenderSurface` calls after it
always runs to completion; and after any sequence of calls in which every
`CreateRenderSurface` call returned false it is still false, so it is true
again only after a `CreateRenderSurface` call that returned true. -/
theorem C10_IsValid_false_until_create_succeeds
    (Destroy : NativeWindowX11 → NativeWindowX11) :
    (∀ view_properties,
      (ELinuxWindowX11.ELinuxWindowX11 view_properties none).IsValid = false) ∧
    (∀ s : ELinuxWindowX11, s.DestroyRenderSurface.1.IsValid = false) ∧
    (∀ (s : ELinuxWindowX11) (attempts : List (CreateEnv × Int × Int)),
      ∃ t rets,
        run Destroy s.DestroyRenderSurface.1
            (attempts.map fun a => Op.CreateRenderSurface a.1 a.2.1 a.2.2)
          = some (t, rets) ∧
        rets.length = attempts.length ∧
        ((∀ b ∈ rets, b = false) → t.IsValid = false)) ∧
    (∀ (s t : ELinuxWindowX11) (ops : List Op) (rets : List Bool),
      run Destroy s.DestroyRenderSurface.1 ops = some (t, rets) →
      ((∀ b ∈ rets, b = false) → t.IsValid = false) ∧
      (t.IsValid = true → true ∈ rets)) := by
  have key : ∀ (s t : ELinuxWindowX11) (ops : List Op) (rets : List Bool),
      run Destroy s.DestroyRenderSurface.1 ops = some (t, rets) →
      (∀ b ∈ rets, b = false) → t.IsValid = false := by
    intro s t ops rets hrun hr
    exact IsValid_false_of_no_surface t
      (run_no_surface Destroy ops s.DestroyRenderSurface.1 t rets rfl hrun hr)
  refine ⟨?_, ?_, ?_, ?_⟩
  · intro view_properties
    exact IsValid_false_of_no_surface _ rfl
  · intro s
    exact IsValid_false_of_no_surface _ rfl
  · intro s attempts
    obtain ⟨t, rets, hrun, hlen⟩ := run_create_total Destroy attempts s.DestroyRenderSurface.1
    exact ⟨t, rets, hrun, hlen, key s t _ rets hrun⟩
  · intro s t ops rets hrun
    refine ⟨key s t ops rets hrun, ?_⟩
    intro hv
    by_contra hmem
    have hall : ∀ b ∈ rets, b = false := by
      intro b hb
      cases b with
      | false => rfl
      | true => exact absurd hb hmem
    rw [key s t ops rets hrun hall] at hv
    cases hv

/-- Witness of C10: the valid scenario window is destroyed, then
`CreateRenderSurface` fails, a configure event is dispatched and
`CreateRenderSurface` fails again; both calls returned false and the window
is not valid. -/
theorem C10_IsValid_false_until_create_succeeds_witness :
    scenario_window_with_surface.IsValid = true ∧
    ∃ t rets,
      run id scenario_window_with_surface.DestroyRenderSurface.1
          [Op.CreateRenderSurface scenario_failing_env 1280 720,
            Op.DispatchEvent [configure_event 480 800],
            Op.CreateRenderSurface scenario_failing_env 1280 720]
        = some (t, rets) ∧
      rets = [false, false] ∧ t.IsValid = false := by
  refine ⟨rfl, _, [false, false], rfl, rfl, ?_⟩
  exact ((C10_IsValid_false_until_create_succeeds id).2.2.2
    scenario_window_with_surface _
    [Op.CreateRenderSurface scenario_failing_env 1280 720,
      Op.DispatchEvent [configure_event 480 800],
      Op.CreateRenderSurface scenario_failing_env 1280 720]
    [false, false] rfl).1 (by decide)

/-! ## The surface lifecycle -/

/-- C12 (the code at the failing input): the scenario window holds native
window 1 and a render surface bound to it. A second `CreateRenderSurface`
call whose native window cannot be created releases native window 1, returns
false and leaves the render surface bound to window 1 in place, next to the
invalid native window 2. A second call that succeeds releases native window 1
before the render surface bound to it. -/
theorem C12_recreate_releases_window_under_bound_surface :
    (∃ w1 r1, scenario_window_with_surface.native_window_ = some w1 ∧ w1.handle = 1 ∧
      scenario_window_with_surface.render_surface_ = some r1 ∧
      r1.native_window_ = some 1 ∧
      (scenario_window_with_surface.CreateRenderSurface scenario_failing_env 1280 720).ret
        = false ∧
      (scenario_window_with_surface.CreateRenderSurface scenario_failing_env 1280 720).released
        = [Released.native_window w1] ∧
      ELinuxWindowX11.render_surface_
          (scenario_window_with_surface.CreateRenderSurface scenario_failing_env 1280 720).self
        = some r1 ∧
      (scenario_window_with_surface.CreateRenderSurface scenario_second_env 1280 720).released
        = [Released.native_window w1, Released.render_surface r1]) ∧
    (∃ w2, ELinuxWindowX11.native_window_
          (scenario_window_with_surface.CreateRenderSurface scenario_failing_env 1280 720).self
        = some w2 ∧ w2.handle = 2) :=
  ⟨⟨_, _, rfl, rfl, rfl, rfl, rfl, rfl, rfl, rfl⟩, ⟨_, rfl, rfl⟩⟩

/-- C13: for every window state, `DestroyRenderSurface()` releases the render
surface (if present) and then the native window (if present), leaves both
fields absent and changes no other field; on a window that has neither it
releases nothing and leaves the state unchanged. -/
theorem C13_destroy_releases_surface_before_window (s : ELinuxWindowX11) :
    s.DestroyRenderSurface.1 = { s with render_surface_ := none, native_window_ := none } ∧
    (∀ r w, s.render_surface_ = some r → s.native_window_ = some w →
      s.DestroyRenderSurface.2 = [Released.render_surface r, Released.native_window w]) ∧
    (∀ r, s.render_surface_ = some r → s.native_window_ = none →
      s.DestroyRenderSurface.2 = [Released.render_surface r]) ∧
    (∀ w, s.render_surface_ = none → s.native_window_ = some w →
      s.DestroyRenderSurface.2 = [Released.native_window w]) ∧
    (s.render_surface_ = none → s.native_window_ = none →
      s.DestroyRenderSurface = (s, [])) := by
  obtain ⟨vp, rot, sc, dp, dv, nw, rs, cb, dl⟩ := s
  refine ⟨rfl, ?_, ?_, ?_, ?_⟩
  · intro r w hr hw
    simp only at hr hw
    subst hr hw
    rfl
  · intro r hr hw
    simp only at hr hw
    subst hr hw
    rfl
  · intro w hr hw
    simp only at hr hw
    subst hr hw
    rfl
  · intro hr hw
    simp only at hr hw
    subst hr hw
    rfl

/-- Witness of C13: on the scenario window with a surface the render surface
is released first, the native window second; on the scenario window, which
has neither, nothing is released and nothing changes. -/
theorem C13_destroy_releases_surface_before_window_witness :
    (∃ r w, scenario_window_with_surface.DestroyRenderSurface.2
      = [Released.render_surface r, Released.native_window w]) ∧
    scenario_window.DestroyRenderSurface = (scenario_window, []) :=
  ⟨⟨_, _, (C13_destroy_releases_surface_before_window scenario_window_with_surface).2.1
      _ _ rfl rfl⟩,
    (C13_destroy_releases_surface_before_window scenario_window).2.2.2.2 rfl rfl⟩

/-! ## Lemmas on the calls of one event -/

/-- `HandlePointerButtonEvent` makes at most one delegate call. -/
theorem HandlePointerButtonEvent_length (s : ELinuxWindowX11) (button : Nat)
    (button_pressed : Bool) (x y : Int) :
    (s.HandlePointerButtonEvent button button_pressed x y).length ≤ 1 := by
  unfold ELinuxWindowX11.HandlePointerButtonEvent
  cases s.binding_handler_delegate_ with
  | none => simp
  | some k =>
    simp only
    split_ifs <;> simp

/-- Without a delegate `HandlePointerButtonEvent` makes no call. -/
theorem HandlePointerButtonEvent_no_delegate (s : ELinuxWindowX11) (button : Nat)
    (button_pressed : Bool) (x y : Int) (h : s.binding_handler_delegate_ = none) :
    s.HandlePointerButtonEvent button button_pressed x y = [] := by
  simp [ELinuxWindowX11.HandlePointerButtonEvent, h]

/-- A button outside 1..9 makes no call, with or without a delegate. -/
theorem HandlePointerButtonEvent_unrecognized (s : ELinuxWindowX11) (button : Nat)
    (button_pressed : Bool) (x y : Int) (h : button < 1 ∨ 9 < button) :
    s.HandlePointerButtonEvent button button_pressed x y = [] := by
  have h1 : button ≠ 1 := by omega
  have h2 : button ≠ 2 := by omega
  have h3 : button ≠ 3 := by omega
  have h4 : button ≠ 4 := by omega
  have h5 : button ≠ 5 := by omega
  have h6 : button ≠ 6 := by omega
  have h7 : button ≠ 7 := by omega
  have h8 : button ≠ 8 := by omega
  have h9 : button ≠ 9 := by omega
  unfold ELinuxWindowX11.HandlePointerButtonEvent
  cases s.binding_handler_delegate_ with
  | none => rfl
  | some k => simp [h1, h2, h3, h4, h5, h6, h7, h8, h9]

/-- The three outcomes of the `switch` on one event: `return false` on a
destroy-confirmed event, a null dereference on a close request without native
window, and otherwise `break` after at most one delegate call (none without a
delegate). -/
theorem ProcessEvent_outcomes (Destroy : NativeWindowX11 → NativeWindowX11)
    (s : ELinuxWindowX11) (e : XEvent) :
    (s.ProcessEvent Destroy e = .ok .stop ∧ e.type = DestroyNotify) ∨
    (s.ProcessEvent Destroy e = .error .null_native_window ∧ e.type = ClientMessage ∧
      s.native_window_ = none) ∨
    (∃ s1 c, s.ProcessEvent Destroy e = .ok (.next s1 c) ∧ c.length ≤ 1 ∧
      (s.binding_handler_delegate_ = none → c = [])) := by
  by_cases h9 : e.type = DestroyNotify
  · exact Or.inl ⟨ProcessEvent_destroy Destroy s e h9, h9⟩
  by_cases h7 : e.type = ConfigureNotify
  · refine Or.inr (Or.inr ?_)
    by_cases hne :
        (if s.current_rotation_ = 90 ∨ s.current_rotation_ = 270 then e.height else e.width)
            ≠ s.view_properties_.width
          ∨ (if s.current_rotation_ = 90 ∨ s.current_rotation_ = 270 then e.width else e.height)
            ≠ s.view_properties_.height
    · refine ⟨_, _, ProcessEvent_configure_changed Destroy s e _ _ h7 rfl rfl hne, ?_, ?_⟩
      · cases s.binding_handler_delegate_ <;> simp
      · intro hn
        simp [hn]
    · simp only [not_or, not_not] at hne
      exact ⟨_, _, ProcessEvent_configure_same Destroy s e h7 hne.1.symm hne.2.symm,
        by simp, fun _ => rfl⟩
  by_cases h3 : e.type = ButtonPress
  · exact Or.inr (Or.inr ⟨_, _, ProcessEvent_button_press Destroy s e h3,
      HandlePointerButtonEvent_length s _ _ _ _,
      HandlePointerButtonEvent_no_delegate s _ _ _ _⟩)
  by_cases h4 : e.type = ButtonRelease
  · exact Or.inr (Or.inr ⟨_, _, ProcessEvent_button_release Destroy s e h4,
      HandlePointerButtonEvent_length s _ _ _ _,
      HandlePointerButtonEvent_no_delegate s _ _ _ _⟩)
  obtain ⟨vp, rot, sc, dp, dv, nw, rs, cb, dl⟩ := s
  unfold ELinuxWindowX11.ProcessEvent
  by_cases h1 : e.type = EnterNotify ∨ e.type = MotionNotify
  · rw [if_pos h1]
    cases dl with
    | none => exact Or.inr (Or.inr ⟨_, _, rfl, by simp, fun _ => rfl⟩)
    | some k => exact Or.inr (Or.inr ⟨_, _, rfl, by simp, fun h => by simp at h⟩)
  rw [if_neg h1]
  by_cases h2 : e.type = LeaveNotify
  · rw [if_pos h2]
    cases dl with
    | none => exact Or.inr (Or.inr ⟨_, _, rfl, by simp, fun _ => rfl⟩)
    | some k => exact Or.inr (Or.inr ⟨_, _, rfl, by simp, fun h => by simp at h⟩)
  rw [if_neg h2, if_neg h3, if_neg h4]
  by_cases h5 : e.type = KeyPress
  · rw [if_pos h5]
    cases dl with
    | none => exact Or.inr (Or.inr ⟨_, _, rfl, by simp, fun _ => rfl⟩)
    | some k => exact Or.inr (Or.inr ⟨_, _, rfl, by simp, fun h => by simp at h⟩)
  rw [if_neg h5]
  by_cases h6 : e.type = KeyRelease
  · rw [if_pos h6]
    cases dl with
    | none => exact Or.inr (Or.inr ⟨_, _, rfl, by simp, fun _ => rfl⟩)
    | some k => exact Or.inr (Or.inr ⟨_, _, rfl, by simp, fun h => by simp at h⟩)
  rw [if_neg h6, if_neg h7]
  by_cases h8 : e.type = ClientMessage
  · rw [if_pos h8]
    cases nw with
    | none => exact Or.inr (Or.inl ⟨rfl, h8, rfl⟩)
    | some w => exact Or.inr (Or.inr ⟨_, _, rfl, by simp, fun _ => rfl⟩)
  rw [if_neg h8, if_neg h9]
  exact Or.inr (Or.inr ⟨_, _, rfl, by simp, fun _ => rfl⟩)

/-- The `switch` on a dropped event (a button event with a button outside
1..9, or an event of a type without a `case`) changes nothing and makes no
call. -/
theorem ProcessEvent_dropped (Destroy : NativeWindowX11 → NativeWindowX11)
    (s : ELinuxWindowX11) (e : XEvent)
    (he : ((e.type = ButtonPress ∨ e.type = ButtonRelease) ∧ (e.button < 1 ∨ 9 < e.button)) ∨
      (e.type ≠ EnterNotify ∧ e.type ≠ MotionNotify ∧ e.type ≠ LeaveNotify ∧
        e.type ≠ ButtonPress ∧ e.type ≠ ButtonRelease ∧ e.type ≠ KeyPress ∧
        e.type ≠ KeyRelease ∧ e.type ≠ ConfigureNotify ∧ e.type ≠ ClientMessage ∧
        e.type ≠ DestroyNotify)) :
    s.ProcessEvent Destroy e = .ok (.next s []) := by
  rcases he with ⟨ht | ht, hb⟩ | ⟨h1, h2, h3, h4, h5, h6, h7, h8, h9, h10⟩
  · rw [ProcessEvent_button_press Destroy s e ht,
      HandlePointerButtonEvent_unrecognized s _ _ _ _ hb]
  · rw [ProcessEvent_button_release Destroy s e ht,
      HandlePointerButtonEvent_unrecognized s _ _ _ _ hb]
  · simp [ELinuxWindowX11.ProcessEvent, h1, h2, h3, h4, h5, h6, h7, h8, h9, h10]

/-! ## More lemmas on the dispatch loop -/

/-- With a native window present the loop returns on every queue. -/
theorem DispatchLoop_total (Destroy : NativeWindowX11 → NativeWindowX11) :
    ∀ (q : List XEvent) (s : ELinuxWindowX11), s.native_window_.isSome = true →
      ∃ r, s.DispatchLoop Destroy q = .ok r := by
  intro q
  induction q with
  | nil =>
    intro s _
    exact ⟨_, rfl⟩
  | cons e rest ih =>
    intro s hw
    rcases ProcessEvent_outcomes Destroy s e with ⟨hp, -⟩ | ⟨-, -, hn⟩ | ⟨s1, c, hp, -, -⟩
    · exact ⟨{ ret := false, self := s, pending := rest, calls := [] },
        by simp only [ELinuxWindowX11.DispatchLoop, hp]⟩
    · rw [hn] at hw
      simp at hw
    · have hw1 : s1.native_window_.isSome = true := by
        rw [(ProcessEvent_frame Destroy s s1 e c hp).2.2.2.1]
        exact hw
      obtain ⟨r, hr⟩ := ih s1 hw1
      exact ⟨{ r with calls := c ++ r.calls },
        by simp only [ELinuxWindowX11.DispatchLoop, hp, hr]⟩

/-- A fault of the loop over `q1` is a fault of the loop over `q1 ++ q2`. -/
theorem DispatchLoop_append_error (Destroy : NativeWindowX11 → NativeWindowX11)
    (q2 : List XEvent) :
    ∀ (q1 : List XEvent) (s : ELinuxWindowX11) (f : Fault),
      s.DispatchLoop Destroy q1 = .error f →
      s.DispatchLoop Destroy (q1 ++ q2) = .error f := by
  intro q1
  induction q1 with
  | nil =>
    intro s f h
    simp [ELinuxWindowX11.DispatchLoop] at h
  | cons e rest ih =>
    intro s f h
    rw [List.cons_append]
    simp only [ELinuxWindowX11.DispatchLoop] at h ⊢
    cases hp : s.ProcessEvent Destroy e with
    | error g =>
      simp only [hp, Except.error.injEq] at h ⊢
      exact h
    | ok st =>
      cases st with
      | stop => simp [hp] at h
      | next s1 c1 =>
        simp only [hp] at h ⊢
        cases hl : s1.DispatchLoop Destroy rest with
        | error g =>
          simp only [hl, Except.error.injEq] at h
          subst h
          rw [ih s1 g hl]
        | ok r => simp [hl] at h

/-- The loop over a queue without destroy-confirmed event, when it returns,
returns true with the queue empty. -/
theorem DispatchLoop_ret_true (Destroy : NativeWindowX11 → NativeWindowX11) :
    ∀ (q : List XEvent) (s : ELinuxWindowX11) (r : DispatchResult),
      (∀ e ∈ q, e.type ≠ DestroyNotify) → s.DispatchLoop Destroy q = .ok r →
      r.ret = true ∧ r.pending = [] := by
  intro q
  induction q with
  | nil =>
    intro s r _ h
    simp only [ELinuxWindowX11.DispatchLoop, Except.ok.injEq] at h
    subst h
    exact ⟨rfl, rfl⟩
  | cons e rest ih =>
    intro s r hq h
    simp only [ELinuxWindowX11.DispatchLoop] at h
    rcases ProcessEvent_outcomes Destroy s e with ⟨-, ht⟩ | ⟨hp, -, -⟩ | ⟨s1, c, hp, -, -⟩
    · exact absurd ht (hq e (List.mem_cons_self e rest))
    · simp [hp] at h
    · simp only [hp] at h
      cases hl : s1.DispatchLoop Destroy rest with
      | error g => simp [hl] at h
      | ok r1 =>
        simp only [hl, Except.ok.injEq] at h
        subst h
        exact ih s1 r1 (fun x hx => hq x (List.mem_cons_of_mem e hx)) hl

/-- Without a delegate the loop makes no delegate call. -/
theorem DispatchLoop_no_delegate (Destroy : NativeWindowX11 → NativeWindowX11) :
    ∀ (q : List XEvent) (s : ELinuxWindowX11) (r : DispatchResult),
      s.binding_handler_delegate_ = none → s.DispatchLoop Destroy q = .ok r →
      r.calls = [] := by
  intro q
  induction q with
  | nil =>
    intro s r _ h
    simp only [ELinuxWindowX11.DispatchLoop, Except.ok.injEq] at h
    subst h
    rfl
  | cons e rest ih =>
    intro s r hn h
    simp only [ELinuxWindowX11.DispatchLoop] at h
    rcases ProcessEvent_outcomes Destroy s e with ⟨hp, -⟩ | ⟨hp, -, -⟩ | ⟨s1, c, hp, -, hc⟩
    · simp only [hp, Except.ok.injEq] at h
      subst h
      rfl
    · simp [hp] at h
    · simp only [hp] at h
      cases hl : s1.DispatchLoop Destroy rest with
      | error g => simp [hl] at h
      | ok r1 =>
        simp only [hl, Except.ok.injEq] at h
        subst h
        have hn1 : s1.binding_handler_delegate_ = none := by
          rw [(ProcessEvent_frame Destroy s s1 e c hp).2.2.2.2.2.2.2, hn]
        simp [hc hn, ih s1 r1 hn1 hl]

/-- A dropped event between `q1` and `q2` changes neither the return value,
nor the final member variables, nor the delegate calls of the loop, nor
whether it faults. -/
theorem DispatchLoop_skip_dropped (Destroy : NativeWindowX11 → NativeWindowX11)
    (e : XEvent) (q2 : List XEvent)
    (he : ∀ t : ELinuxWindowX11, t.ProcessEvent Destroy e = .ok (.next t [])) :
    ∀ (q1 : List XEvent) (s : ELinuxWindowX11),
      (s.DispatchLoop Destroy (q1 ++ e :: q2)).map (fun r => (r.ret, r.self, r.calls))
        = (s.DispatchLoop Destroy (q1 ++ q2)).map (fun r => (r.ret, r.self, r.calls)) := by
  intro q1
  induction q1 with
  | nil =>
    intro s
    simp only [List.nil_append, ELinuxWindowX11.DispatchLoop, he s]
    cases s.DispatchLoop Destroy q2 with
    | error f => rfl
    | ok r => simp [Except.map]
  | cons x rest ih =>
    intro s
    rw [List.cons_append, List.cons_append]
    simp only [ELinuxWindowX11.DispatchLoop]
    cases hp : s.ProcessEvent Destroy x with
    | error f => rfl
    | ok st =>
      cases st with
      | stop => rfl
      | next s1 c1 =>
        simp only
        have h := ih s1
        cases ha : s1.DispatchLoop Destroy (rest ++ e :: q2) with
        | error f =>
          cases hb : s1.DispatchLoop Destroy (rest ++ q2) with
          | error g =>
            rw [ha, hb] at h
            simp only [Except.map, Except.error.injEq] at h
            subst h
            rfl
          | ok rb =>
            rw [ha, hb] at h
            simp [Except.map] at h
        | ok ra =>
          cases hb : s1.DispatchLoop Destroy (rest ++ q2) with
          | error g =>
            rw [ha, hb] at h
            simp [Except.map] at h
          | ok rb =>
            rw [ha, hb] at h
            simp only [Except.map, Except.ok.injEq, Prod.mk.injEq] at h
            simp [Except.map, h.1, h.2.1, h.2.2]

/-- Dispatching one configure event whose rotation-adjusted size is the stored
size changes nothing and makes no call. -/
theorem DispatchEvent_configure_same (Destroy : NativeWindowX11 → NativeWindowX11)
    (s : ELinuxWindowX11) (d : Nat) (e : XEvent) (hd : s.display_ = some d)
    (he : e.type = ConfigureNotify)
    (hw : s.view_properties_.width = if s.current_rotation_ = 90 ∨ s.current_rotation_ = 270
      then e.height else e.width)
    (hh : s.view_properties_.height = if s.current_rotation_ = 90 ∨ s.current_rotation_ = 270
      then e.width else e.height) :
    s.DispatchEvent Destroy [e]
      = .ok { ret := true, self := s, pending := [], calls := [] } :=
  DispatchEvent_single_next Destroy s s e [] d hd
    (ProcessEvent_configure_same Destroy s e he hw hh)

/-- `CreateRenderSurface` changes only the native-window and render-surface
fields, and the native window it stores has the rotation-adjusted size. -/
theorem CreateRenderSurface_frame (env : CreateEnv) (s : ELinuxWindowX11)
    (width height : Int) :
    (s.CreateRenderSurface env width height).self
      = { s with
          native_window_ := (s.CreateRenderSurface env width height).self.native_window_
          render_surface_ := (s.CreateRenderSurface env width height).self.render_surface_ } ∧
    ∃ w, (s.CreateRenderSurface env width height).self.native_window_ = some w ∧
      w.handle = env.window_handle ∧ w.IsValid = env.window_valid ∧
      w.width = (if s.current_rotation_ = 90 ∨ s.current_rotation_ = 270
        then height else width) ∧
      w.height = (if s.current_rotation_ = 90 ∨ s.current_rotation_ = 270
        then width else height) := by
  unfold ELinuxWindowX11.CreateRenderSurface
  cases hv : env.window_valid <;> simp [NativeWindowX11.IsValid, hv]

/-! ## Calls per event, dropped events, the first destroy-confirmed event -/

/-- C14: for every window state and every event, the `switch` of
`DispatchEvent` on that event either breaks after at most one delegate call,
or returns false without a call, or faults on the null native window before
any call; so a `DispatchEvent` call on that one event either faults before
any call or returns after at most one delegate call. -/
theorem C14_at_most_one_call_per_event (Destroy : NativeWindowX11 → NativeWindowX11)
    (s : ELinuxWindowX11) (e : XEvent) :
    ((∃ s1 c, s.ProcessEvent Destroy e = .ok (.next s1 c) ∧ c.length ≤ 1) ∨
      s.ProcessEvent Destroy e = .ok .stop ∨
      (s.ProcessEvent Destroy e = .error .null_native_window ∧ e.type = ClientMessage ∧
        s.native_window_ = none)) ∧
    ((s.DispatchEvent Destroy [e] = .error .null_display ∧ s.display_ = none) ∨
      (s.DispatchEvent Destroy [e] = .error .null_native_window ∧ e.type = ClientMessage ∧
        s.native_window_ = none) ∨
      (∃ r, s.DispatchEvent Destroy [e] = .ok r ∧ r.calls.length ≤ 1)) := by
  constructor
  · rcases ProcessEvent_outcomes Destroy s e with ⟨hp, -⟩ | ⟨hp, ht, hn⟩ | ⟨s1, c, hp, hc, -⟩
    · exact Or.inr (Or.inl hp)
    · exact Or.inr (Or.inr ⟨hp, ht, hn⟩)
    · exact Or.inl ⟨s1, c, hp, hc⟩
  · cases hd : s.display_ with
    | none =>
      refine Or.inl ⟨?_, rfl⟩
      simp [ELinuxWindowX11.DispatchEvent, hd]
    | some d =>
      rcases ProcessEvent_outcomes Destroy s e with ⟨hp, -⟩ | ⟨hp, ht, hn⟩ | ⟨s1, c, hp, hc, -⟩
      · refine Or.inr (Or.inr ⟨{ ret := false, self := s, pending := [], calls := [] }, ?_, ?_⟩)
        · simp [ELinuxWindowX11.DispatchEvent, hd, ELinuxWindowX11.DispatchLoop, hp]
        · simp
      · refine Or.inr (Or.inl ⟨?_, ht, hn⟩)
        simp [ELinuxWindowX11.DispatchEvent, hd, ELinuxWindowX11.DispatchLoop, hp]
      · exact Or.inr (Or.inr ⟨_, DispatchEvent_single_next Destroy s s1 e c d hd hp, hc⟩)

/-- C15 (the code at the failing input): on the window whose display failed
to open the validity flag is false and the connection handle is null;
`DispatchEvent` dereferences the null connection, with or without pending
events; `CreateRenderSurface` with a native window that cannot be created
returns false and still stores a native window object. -/
theorem C15_no_guard_on_failed_display :
    scenario_window_no_display.display_valid_ = false ∧
    scenario_window_no_display.display_ = none ∧
    scenario_window_no_display.native_window_ = none ∧
    scenario_window_no_display.DispatchEvent id [] = .error .null_display ∧
    scenario_window_no_display.DispatchEvent id [button_event ButtonPress 1 10 20]
      = .error .null_display ∧
    (scenario_window_no_display.CreateRenderSurface scenario_failing_env 1280 720).ret
      = false ∧
    (∃ w, ELinuxWindowX11.native_window_
        (scenario_window_no_display.CreateRenderSurface scenario_failing_env 1280 720).self
      = some w ∧ w.handle = 2 ∧ w.display = none) :=
  ⟨rfl, rfl, rfl, rfl, rfl, rfl, _, rfl, rfl, rfl⟩

/-- C16: for all event queues q1 and q2 and every dropped event e (a button
press or release with a button outside 1..9, or an event of a type without a
`case` in the `switch`), `DispatchEvent` on q1 ++ [e] ++ q2 and on q1 ++ q2
agree on the return value, the final window state and the sequence of
delegate calls (and on the fault, when there is one); with an open display
and a native window both calls return. -/
theorem C16_dropped_event_does_not_disturb_drain
    (Destroy : NativeWindowX11 → NativeWindowX11) (s : ELinuxWindowX11)
    (q1 q2 : List XEvent) (e : XEvent)
    (he : ((e.type = ButtonPress ∨ e.type = ButtonRelease) ∧ (e.button < 1 ∨ 9 < e.button)) ∨
      (e.type ≠ EnterNotify ∧ e.type ≠ MotionNotify ∧ e.type ≠ LeaveNotify ∧
        e.type ≠ ButtonPress ∧ e.type ≠ ButtonRelease ∧ e.type ≠ KeyPress ∧
        e.type ≠ KeyRelease ∧ e.type ≠ ConfigureNotify ∧ e.type ≠ ClientMessage ∧
        e.type ≠ DestroyNotify)) :
    (s.DispatchEvent Destroy (q1 ++ [e] ++ q2)).map (fun r => (r.ret, r.self, r.calls))
      = (s.DispatchEvent Destroy (q1 ++ q2)).map (fun r => (r.ret, r.self, r.calls)) ∧
    (s.display_.isSome = true → s.native_window_.isSome = true →
      ∃ r1 r2, s.DispatchEvent Destroy (q1 ++ [e] ++ q2) = .ok r1 ∧
        s.DispatchEvent Destroy (q1 ++ q2) = .ok r2 ∧
        r1.ret = r2.ret ∧ r1.self = r2.self ∧ r1.calls = r2.calls) := by
  have hskip : (s.DispatchEvent Destroy (q1 ++ [e] ++ q2)).map
        (fun r => (r.ret, r.self, r.calls))
      = (s.DispatchEvent Destroy (q1 ++ q2)).map (fun r => (r.ret, r.self, r.calls)) := by
    rw [List.append_assoc, List.singleton_append]
    unfold ELinuxWindowX11.DispatchEvent
    cases s.display_ with
    | none => rfl
    | some d =>
      exact DispatchLoop_skip_dropped Destroy e q2
        (fun t => ProcessEvent_dropped Destroy t e he) q1 s
  refine ⟨hskip, ?_⟩
  intro hd hw
  have total : ∀ q, ∃ r, s.DispatchEvent Destroy q = .ok r := by
    intro q
    unfold ELinuxWindowX11.DispatchEvent
    cases hds : s.display_ with
    | none => simp [hds] at hd
    | some d => exact DispatchLoop_total Destroy q s hw
  obtain ⟨r1, hr1⟩ := total (q1 ++ [e] ++ q2)
  obtain ⟨r2, hr2⟩ := total (q1 ++ q2)
  rw [hr1, hr2] at hskip
  simp only [Except.map, Except.ok.injEq, Prod.mk.injEq] at hskip
  exact ⟨r1, r2, hr1, hr2, hskip.1, hskip.2.1, hskip.2.2⟩

/-- Witness of C16: a press of button 12 between a key press and a configure
event on the scenario window with a surface. -/
theorem C16_dropped_event_does_not_disturb_drain_witness :
    ∃ r1 r2,
      scenario_window_with_surface.DispatchEvent id
          ([key_event KeyPress 38] ++ [button_event ButtonPress 12 10 20]
            ++ [configure_event 480 800]) = .ok r1 ∧
      scenario_window_with_surface.DispatchEvent id
          ([key_event KeyPress 38] ++ [configure_event 480 800]) = .ok r2 ∧
      r1.ret = r2.ret ∧ r1.self = r2.self ∧ r1.calls = r2.calls :=
  (C16_dropped_event_does_not_disturb_drain id scenario_window_with_surface
    [key_event KeyPress 38] [configure_event 480 800] (button_event ButtonPress 12 10 20)
    (Or.inl ⟨Or.inl rfl, Or.inr (by decide)⟩)).2 rfl rfl

/-- C17: for every window state and every string s, `GetClipboardData()`
after `SetClipboardData(s)` returns s; `SetClipboardData` changes no field
but the clipboard buffer; `GetClipboardData` only reads the clipboard
buffer. -/
theorem C17_clipboard_round_trip (s : ELinuxWindowX11) (data : String) :
    (s.SetClipboardData data).GetClipboardData = data ∧
    s.SetClipboardData data = { s with clipboard_data_ := data } ∧
    (s.SetClipboardData data).view_properties_ = s.view_properties_ ∧
    (s.SetClipboardData data).current_rotation_ = s.current_rotation_ ∧
    (s.SetClipboardData data).current_scale_ = s.current_scale_ ∧
    (s.SetClipboardData data).display_ = s.display_ ∧
    (s.SetClipboardData data).display_valid_ = s.display_valid_ ∧
    (s.SetClipboardData data).native_window_ = s.native_window_ ∧
    (s.SetClipboardData data).render_surface_ = s.render_surface_ ∧
    (s.SetClipboardData data).binding_handler_delegate_ = s.binding_handler_delegate_ ∧
    s.GetClipboardData = s.clipboard_data_ :=
  ⟨rfl, rfl, rfl, rfl, rfl, rfl, rfl, rfl, rfl, rfl, rfl⟩

/-- C18: with no delegate set (and the display open), `DispatchEvent` makes
no delegate call on any queue, and returns on every queue when a native
window is present; a configure event whose rotation-adjusted size
(width,height) differs from the stored size still stores (width,height), so
that after `SetView` attaches a delegate the same configure event makes no
`OnWindowSizeChanged` call and changes nothing. -/
theorem C18_no_delegate_configure_still_stores
    (Destroy : NativeWindowX11 → NativeWindowX11) (s : ELinuxWindowX11) (d : Nat)
    (hd : s.display_ = some d) (hn : s.binding_handler_delegate_ = none) :
    (∀ queue r, s.DispatchEvent Destroy queue = .ok r → r.calls = []) ∧
    (s.native_window_.isSome = true →
      ∀ queue, ∃ r, s.DispatchEvent Destroy queue = .ok r ∧ r.calls = []) ∧
    (∀ (e : XEvent) (width height : Int) (k : Nat), e.type = ConfigureNotify →
      width = (if s.current_rotation_ = 90 ∨ s.current_rotation_ = 270
        then e.height else e.width) →
      height = (if s.current_rotation_ = 90 ∨ s.current_rotation_ = 270
        then e.width else e.height) →
      width ≠ s.view_properties_.width ∨ height ≠ s.view_properties_.height →
      ∃ r1, s.DispatchEvent Destroy [e] = .ok r1 ∧ r1.calls = [] ∧
        r1.self.view_properties_.width = width ∧
        r1.self.view_properties_.height = height ∧
        (r1.self.SetView (some k)).DispatchEvent Destroy [e]
          = .ok { ret := true, self := r1.self.SetView (some k), pending := [],
                  calls := [] }) := by
  have hcalls : ∀ queue r, s.DispatchEvent Destroy queue = .ok r → r.calls = [] := by
    intro queue r hr
    unfold ELinuxWindowX11.DispatchEvent at hr
    simp only [hd] at hr
    exact DispatchLoop_no_delegate Destroy queue s r hn hr
  refine ⟨hcalls, ?_, ?_⟩
  · intro hw queue
    obtain ⟨r, hr⟩ := DispatchLoop_total Destroy queue s hw
    have hr1 : s.DispatchEvent Destroy queue = .ok r := by
      unfold ELinuxWindowX11.DispatchEvent
      simp only [hd]
      exact hr
    exact ⟨r, hr1, hcalls queue r hr1⟩
  · intro e width height k he hw hh hne
    have h1 := DispatchEvent_configure Destroy s d e width height hd he hw hh
    refine ⟨_, h1, ?_, rfl, rfl, ?_⟩
    · simp [hn]
    · exact DispatchEvent_configure_same Destroy _ d e hd he hw hh

/-- Witness of C18: the window constructed with rotation 90 and no delegate
gets a configure event reporting (480,800): no call, (800,480) is stored;
after `SetView` the same event makes no call. -/
theorem C18_no_delegate_configure_still_stores_witness :
    ∃ r1,
      (ELinuxWindowX11.ELinuxWindowX11 scenario_view_properties (some 1)).DispatchEvent id
          [configure_event 480 800] = .ok r1 ∧
      r1.calls = [] ∧
      r1.self.view_properties_.width = 800 ∧ r1.self.view_properties_.height = 480 ∧
      (r1.self.SetView (some 1)).DispatchEvent id [configure_event 480 800]
        = .ok { ret := true, self := r1.self.SetView (some 1), pending := [], calls := [] } :=
  (C18_no_delegate_configure_still_stores id
    (ELinuxWindowX11.ELinuxWindowX11 scenario_view_properties (some 1)) 1 rfl rfl).2.2
    (configure_event 480 800) 800 480 1 rfl rfl rfl (Or.inl (by decide))

/-- C19: for every queue q1 without destroy-confirmed event and every queue
q2, `DispatchEvent` on q1 ++ [destroy-confirmed] ++ q2 does what
`DispatchEvent` on q1 does (same final state, same delegate calls, same
fault), but returns false and leaves exactly q2 pending; `DispatchEvent` on q1
itself returns true with nothing pending, and with an open display and a
native window it does return. -/
theorem C19_stops_at_first_destroy (Destroy : NativeWindowX11 → NativeWindowX11)
    (s : ELinuxWindowX11) (q1 q2 : List XEvent) (e : XEvent)
    (hq1 : ∀ b ∈ q1, b.type ≠ DestroyNotify) (he : e.type = DestroyNotify) :
    (s.DispatchEvent Destroy (q1 ++ [e] ++ q2) =
      match s.DispatchEvent Destroy q1 with
      | .ok r1 => .ok { ret := false, self := r1.self, pending := q2, calls := r1.calls }
      | .error f => .error f) ∧
    (∀ r1, s.DispatchEvent Destroy q1 = .ok r1 → r1.ret = true ∧ r1.pending = []) ∧
    (s.display_.isSome = true → s.native_window_.isSome = true →
      ∃ r1, s.DispatchEvent Destroy q1 = .ok r1 ∧
        s.DispatchEvent Destroy (q1 ++ [e] ++ q2)
          = .ok { ret := false, self := r1.self, pending := q2, calls := r1.calls }) := by
  have hret : ∀ r1, s.DispatchEvent Destroy q1 = .ok r1 → r1.ret = true ∧ r1.pending = [] := by
    intro r1 hr1
    unfold ELinuxWindowX11.DispatchEvent at hr1
    cases hd : s.display_ with
    | none => simp [hd] at hr1
    | some d =>
      simp only [hd] at hr1
      exact DispatchLoop_ret_true Destroy q1 s r1 hq1 hr1
  have hmain : s.DispatchEvent Destroy (q1 ++ [e] ++ q2) =
      match s.DispatchEvent Destroy q1 with
      | .ok r1 => .ok { ret := false, self := r1.self, pending := q2, calls := r1.calls }
      | .error f => .error f := by
    rw [List.append_assoc, List.singleton_append]
    unfold ELinuxWindowX11.DispatchEvent
    cases hd : s.display_ with
    | none => rfl
    | some d =>
      simp only
      cases hl : s.DispatchLoop Destroy q1 with
      | error f => exact DispatchLoop_append_error Destroy (e :: q2) q1 s f hl
      | ok r1 =>
        rw [DispatchLoop_append Destroy (e :: q2) q1 s r1 hl
          (DispatchLoop_ret_true Destroy q1 s r1 hq1 hl).1]
        simp [ELinuxWindowX11.DispatchLoop, ProcessEvent_destroy Destroy r1.self e he]
  refine ⟨hmain, hret, ?_⟩
  intro hd hw
  have hex : ∃ r1, s.DispatchEvent Destroy q1 = .ok r1 := by
    unfold ELinuxWindowX11.DispatchEvent
    cases hds : s.display_ with
    | none => simp [hds] at hd
    | some d => exact DispatchLoop_total Destroy q1 s hw
  obtain ⟨r1, hr1⟩ := hex
  refine ⟨r1, hr1, ?_⟩
  rw [hmain, hr1]

/-- Witness of C19: on the scenario window with a surface a key press comes
before the destroy-confirmed event and a button press after it. -/
theorem C19_stops_at_first_destroy_witness :
    ∃ r1, scenario_window_with_surface.DispatchEvent id [key_event KeyPress 38] = .ok r1 ∧
      scenario_window_with_surface.DispatchEvent id
          ([key_event KeyPress 38] ++ [key_event DestroyNotify 0]
            ++ [button_event ButtonPress 1 10 20])
        = .ok { ret := false, self := r1.self
                pending := [button_event ButtonPress 1 10 20], calls := r1.calls } :=
  (C19_stops_at_first_destroy id scenario_window_with_surface [key_event KeyPress 38]
    [button_event ButtonPress 1 10 20] (key_event DestroyNotify 0) (by decide) rfl).2.2
    rfl rfl

/-- C20: for every stored size (W,H) and every rotation,
`CreateRenderSurface(W,H)` constructs the native window with the size
(w,h) that is (H,W) at rotation 90 or 270 and (W,H) at rotation 0 or 180;
for a configure event that then reports exactly (w,h) the rotation-adjusted
size is (W,H), and `DispatchEvent` on it changes nothing, the stored size
included, and makes no delegate call. -/
theorem C20_create_and_configure_swaps_cancel
    (Destroy : NativeWindowX11 → NativeWindowX11) (env : CreateEnv) (s : ELinuxWindowX11)
    (d : Nat) (e : XEvent) (hd : s.display_ = some d) (he : e.type = ConfigureNotify) :
    ∃ w, ELinuxWindowX11.native_window_
        (s.CreateRenderSurface env s.view_properties_.width s.view_properties_.height).self
        = some w ∧
      (s.current_rotation_ = 90 ∨ s.current_rotation_ = 270 →
        w.width = s.view_properties_.height ∧ w.height = s.view_properties_.width) ∧
      (s.current_rotation_ = 0 ∨ s.current_rotation_ = 180 →
        w.width = s.view_properties_.width ∧ w.height = s.view_properties_.height) ∧
      (e.width = w.width → e.height = w.height →
        (if s.current_rotation_ = 90 ∨ s.current_rotation_ = 270 then e.height else e.width)
          = s.view_properties_.width ∧
        (if s.current_rotation_ = 90 ∨ s.current_rotation_ = 270 then e.width else e.height)
          = s.view_properties_.height ∧
        ELinuxWindowX11.DispatchEvent Destroy
            (s.CreateRenderSurface env s.view_properties_.width s.view_properties_.height).self
            [e]
          = .ok { ret := true
                  self := (s.CreateRenderSurface env s.view_properties_.width
                    s.view_properties_.height).self
                  pending := [], calls := [] }) := by
  obtain ⟨hframe, w, hw, -, -, hww, hwh⟩ :=
    CreateRenderSurface_frame env s s.view_properties_.width s.view_properties_.height
  refine ⟨w, hw, ?_, ?_, ?_⟩
  · intro hr
    rw [hww, hwh]
    simp [hr]
  · intro hr
    have hnr : ¬ (s.current_rotation_ = 90 ∨ s.current_rotation_ = 270) := by omega
    rw [hww, hwh]
    simp [hnr]
  · intro hew heh
    have hadj : (if s.current_rotation_ = 90 ∨ s.current_rotation_ = 270
          then e.height else e.width) = s.view_properties_.width ∧
        (if s.current_rotation_ = 90 ∨ s.current_rotation_ = 270
          then e.width else e.height) = s.view_properties_.height := by
      rw [hew, heh, hww, hwh]
      by_cases hr : s.current_rotation_ = 90 ∨ s.current_rotation_ = 270 <;> simp [hr]
    refine ⟨hadj.1, hadj.2, ?_⟩
    apply DispatchEvent_configure_same Destroy _ d e
    · rw [hframe]
      exact hd
    · exact he
    · rw [hframe]
      exact hadj.1.symm
    · rw [hframe]
      exact hadj.2.symm

/-- Witness of C20: the scenario window (rotation 90, stored size 1280x720)
creates its native window with size 720x1280; a configure event reporting
(720,1280) then changes nothing and makes no call. -/
theorem C20_create_and_configure_swaps_cancel_witness :
    ELinuxWindowX11.DispatchEvent id
        (scenario_window.CreateRenderSurface scenario_second_env 1280 720).self
        [configure_event 720 1280]
      = .ok { ret := true
              self := (scenario_window.CreateRenderSurface scenario_second_env 1280 720).self
              pending := [], calls := [] } := by
  obtain ⟨w, hw, -, -, h⟩ := C20_create_and_configure_swaps_cancel id scenario_second_env
    scenario_window 1 (configure_event 720 1280) rfl rfl
  have hw1 : some w = some _ := hw.symm.trans rfl
  cases hw1
  exact (h rfl rfl).2.2

end flutter
